import Mathlib

/-!
Verification of the kaspa-sender deposit tool
(`src/examples/kaspa-sender/src/main.rs`).

The program is a one-shot CLI: parse arguments, establish a wallet session
(`get_wallet`), build and submit a deposit transaction carrying an opaque
payload (`deposit_with_payload`), and print the resulting transaction id.

We give a shallow embedding.  The external kaspa wallet SDK (store opening,
connect, unlock, account enumeration/selection/activation, send) and the
external address parser are modelled as an `Env` of oracle results; the
program itself is translated line by line into a state monad `M` that
records a trace of the SDK calls made, the lines written to standard
output, and the lines written to the diagnostic stream (stderr).
`Outcome` distinguishes normal errors (Rust `Result::Err`, produced by
`?` / `map_err` / `ok_or_else`) from panics (the `.unwrap()` call on the
first account descriptor's `receive_address`).
-/

namespace KaspaSender

/-- Wallet secret (the `--wallet-secret` credential), kept opaque as a string. -/
abbrev Secret := String

/-- A parsed kaspa address (opaque; produced by the external `Address::try_from`). -/
abbrev Address := String

/-- A transaction identifier, as rendered by `Display`. -/
abbrev TransactionId := String

/-- The network id: mainnet, or testnet with a numeric suffix
(`NetworkId::with_suffix(NetworkType::Testnet, 10)`). -/
inductive NetworkId where
  | mainnet : NetworkId
  | testnet : Nat → NetworkId
deriving DecidableEq

/-- The fields of a kaspa `AccountDescriptor` that the program reads:
`account_id` and the optional `receive_address`. -/
structure AccountDescriptor where
  account_id : Nat
  receive_address : Option String
deriving DecidableEq

/-- The argument tuple the program passes to the SDK `send` call:
`a.send(dst, None, fees, payload?, secret, payment_secret, &abortable, None)`.
`outputs` is the `PaymentDestination` built from one `PaymentOutput`;
`feeRate` is the second argument (always `None` here); `fees` is the
`Fees::from(0i64)` priority-fee offset; the SDK call has no note/memo
parameter at all. -/
structure SendRequest where
  outputs : List (Address × Nat)
  feeRate : Option Unit
  fees : Int
  payload : Option (List Nat)
  secret : Secret
  paymentSecret : Option Secret
  notifier : Option Unit
deriving DecidableEq

/-- The submission summary returned by a successful `send`; the program
only reads `final_transaction_id()`. -/
structure Summary where
  final_transaction_id : Option TransactionId
deriving DecidableEq

/-- Trace events: one per external SDK call the program makes, in order. -/
inductive Step where
  | setStorageFolder : String → Step
  | openLocalStore : Step
  | createWallet : NetworkId → Step
  | startWallet : Step
  | connectStep : Option String → NetworkId → Step
  | isConnectedCheck : Step
  | walletOpenStep : Secret → Option String → Bool → Bool → Step
  | enumerate : Step
  | selectStep : Option Nat → Step
  | activateStep : Option (List Nat) → Step
  | getAccount : Step
  | sendStep : SendRequest → Step
deriving DecidableEq

/-- The environment: results of the external wallet SDK and parsing calls.
Each field models one consumed interface from the spec's list
(open-store, construct-session, start, connect, is-connected, unlock,
enumerate-accounts, select-account, activate-account, get-active-account,
send, address parsing). -/
structure Env where
  setStorageFolder : String → Except String Unit
  localStore : Except String Unit
  tryNew : NetworkId → Except String Unit
  start : Except String Unit
  connect : Option String → NetworkId → Except String Unit
  isConnected : Bool
  walletOpen : Secret → Option String → Bool → Bool → Except String Unit
  accountsEnumerate : Except String (List AccountDescriptor)
  accountsSelect : Option Nat → Except String Unit
  accountsActivate : Option (List Nat) → Except String Unit
  account : Except String Unit
  send : SendRequest → Except String Summary
  parseAddress : String → Except String Address

/-- Run state: trace of SDK calls, stdout lines (`println!`),
diagnostic-stream lines (`eprintln!`). -/
structure RunState where
  trace : List Step
  stdoutLines : List String
  stderrLines : List String
deriving DecidableEq

/-- The empty initial run state of a fresh process invocation. -/
def initState : RunState := ⟨[], [], []⟩

/-- Result of running (a piece of) the program: normal return, an error
propagated to the caller (Rust `Err`), or a panic. -/
inductive Outcome (α : Type) where
  | ok : α → Outcome α
  | err : String → Outcome α
  | panicked : String → Outcome α
deriving DecidableEq

/-- The program monad: state passing plus early exit on error or panic. -/
def M (α : Type) : Type := RunState → RunState × Outcome α

/-- Sequencing: mirrors Rust `?` (and panic propagation). -/
def bindM {α β : Type} (x : M α) (f : α → M β) : M β := fun s =>
  match x s with
  | (s2, Outcome.ok a) => f a s2
  | (s2, Outcome.err e) => (s2, Outcome.err e)
  | (s2, Outcome.panicked m) => (s2, Outcome.panicked m)

/-- Return a value. -/
def pureM {α : Type} (a : α) : M α := fun s => (s, Outcome.ok a)

/-- Early `return Err(...)` (a `?` on an `Err`, or `return Err(eyre!(..))`). -/
def failM {α : Type} (msg : String) : M α := fun s => (s, Outcome.err msg)

/-- Record an external SDK call in the trace. -/
def emitStep (st : Step) : M Unit := fun s =>
  ({ s with trace := s.trace ++ [st] }, Outcome.ok ())

/-- Embedding of eprintln: write a line to the diagnostic stream. -/
def eprintLn (msg : String) : M Unit := fun s =>
  ({ s with stderrLines := s.stderrLines ++ [msg] }, Outcome.ok ())

/-- Embedding of println: write a line to standard output. -/
def printLn (msg : String) : M Unit := fun s =>
  ({ s with stdoutLines := s.stdoutLines ++ [msg] }, Outcome.ok ())

/-- Embedding of a map_err-then-question-mark chain: lift an external result,
prefixing its error text with the operation that failed. -/
def liftRes {α : Type} (prefixMsg : String) (r : Except String α) : M α := fun s =>
  (s, match r with
      | Except.ok a => Outcome.ok a
      | Except.error e => Outcome.err (prefixMsg ++ e))

/-- Embedding of a bare question-mark on an external result: propagate the error text. -/
def liftPlain {α : Type} (r : Except String α) : M α := liftRes "" r

/-- Embedding of ok_or_else-then-question-mark on an `Option`. -/
def okOr {α : Type} (o : Option α) (msg : String) : M α := fun s =>
  (s, match o with
      | some a => Outcome.ok a
      | none => Outcome.err msg)

/-- Embedding of unwrap on an `Option`: panics on `None`. -/
def unwrapOption {α : Type} (o : Option α) : M α := fun s =>
  (s, match o with
      | some a => Outcome.ok a
      | none => Outcome.panicked "unwrap on a None value")

/-- One hex digit to its value (`0-9a-fA-F`). -/
def hexDigitVal (c : Char) : Option Nat :=
  if '0' ≤ c ∧ c ≤ '9' then some (c.toNat - '0'.toNat)
  else if 'a' ≤ c ∧ c ≤ 'f' then some (c.toNat - 'a'.toNat + 10)
  else if 'A' ≤ c ∧ c ≤ 'F' then some (c.toNat - 'A'.toNat + 10)
  else none

/-- Decode pairs of hex digits, tracking the position for error reporting. -/
def hexDecodeAux : Nat → List Char → Except String (List Nat)
  | _, [] => Except.ok []
  | i, c1 :: c2 :: rest =>
      match hexDigitVal c1 with
      | none => Except.error ("Invalid character at position " ++ toString i)
      | some h =>
        match hexDigitVal c2 with
        | none => Except.error ("Invalid character at position " ++ toString (i + 1))
        | some l =>
          match hexDecodeAux (i + 2) rest with
          | Except.error e => Except.error e
          | Except.ok bytes => Except.ok ((h * 16 + l) :: bytes)
  | _, [_] => Except.error "Odd number of digits"

/-- Embedding of hex decoding: rejects odd-length input, then decodes digit pairs. -/
def hexDecode (s : String) : Except String (List Nat) :=
  if s.length % 2 ≠ 0 then Except.error "Odd number of digits"
  else hexDecodeAux 0 s.data

/-- The session handle returned by `get_wallet` (opaque `Arc<Wallet>`). -/
structure Wallet where
  mk' ::
deriving DecidableEq

/-- Embedding of `get_wallet` (main.rs lines 98-163): the
session-establishment sequence.  Every SDK call is recorded in the trace
immediately before its result is consulted; every `map_err` message is
reproduced. -/
def get_wallet (env : Env) (s : Secret) (network_id : NetworkId)
    (url : String) (storage_folder : Option String) : M Wallet :=
  bindM
    (match storage_folder with
     | some folder =>
         bindM (emitStep (Step.setStorageFolder folder)) (fun _ =>
           liftRes "failed to set storage folder: " (env.setStorageFolder folder))
     | none => pureM ())
    (fun _ =>
  bindM (emitStep Step.openLocalStore) (fun _ =>
  bindM (liftRes "failed to open wallet local store: " env.localStore) (fun _ =>
  bindM (emitStep (Step.createWallet network_id)) (fun _ =>
  bindM (liftRes "failed to create wallet: " (env.tryNew network_id)) (fun _ =>
  bindM (emitStep Step.startWallet) (fun _ =>
  bindM (liftRes "failed to start wallet: " env.start) (fun _ =>
  bindM (emitStep (Step.connectStep (some url) network_id)) (fun _ =>
  bindM (liftRes "failed to connect wallet: " (env.connect (some url) network_id)) (fun _ =>
  bindM (emitStep Step.isConnectedCheck) (fun _ =>
  bindM (if env.isConnected then pureM () else failM "wallet not connected") (fun _ =>
  bindM (emitStep (Step.walletOpenStep s none true false)) (fun _ =>
  bindM (liftRes "failed to open wallet: " (env.walletOpen s none true false)) (fun _ =>
  bindM (emitStep Step.enumerate) (fun _ =>
  bindM (liftRes "failed to enumerate accounts: " env.accountsEnumerate) (fun accounts =>
  bindM (okOr accounts.head? "wallet has no accounts") (fun account_descriptor =>
  bindM (emitStep (Step.selectStep (some account_descriptor.account_id))) (fun _ =>
  bindM (liftRes "failed to select wallet account: "
          (env.accountsSelect (some account_descriptor.account_id))) (fun _ =>
  bindM (emitStep (Step.activateStep (some [account_descriptor.account_id]))) (fun _ =>
  bindM (liftRes "failed to activate wallet account: "
          (env.accountsActivate (some [account_descriptor.account_id]))) (fun _ =>
  bindM (unwrapOption account_descriptor.receive_address) (fun ra =>
  bindM (eprintLn ("wallet ready: receive_address=" ++ ra)) (fun _ =>
  pureM Wallet.mk'))))))))))))))))))))))

/-- The send request `deposit_with_payload` builds:
`PaymentDestination::from(PaymentOutput::new(address, amt))` as the single
output, `None` fee rate, `Fees::from(0i64)`, the payload matched on its
length, the wallet secret, `payment_secret = None`, `None` notifier. -/
def builtRequest (secret : Secret) (address : Address) (amt : Nat)
    (payload : List Nat) : SendRequest :=
  { outputs := [(address, amt)]
    feeRate := none
    fees := (0 : Int)
    payload := match payload.length with
               | 0 => none
               | _ => some payload
    secret := secret
    paymentSecret := none
    notifier := none }

/-- Embedding of `deposit_with_payload` (main.rs lines 165-201): fetch the
active account, build the send request (one output, zero fee offset,
payload omitted exactly when its length is 0), submit, and extract the
final transaction id. -/
def deposit_with_payload (env : Env) (_w : Wallet) (secret : Secret)
    (address : Address) (amt : Nat) (payload : List Nat) : M TransactionId :=
  bindM (emitStep Step.getAccount) (fun _ =>
  bindM (liftRes "failed to get account: " env.account) (fun _ =>
  bindM (emitStep (Step.sendStep (builtRequest secret address amt payload))) (fun _ =>
  bindM (liftRes "failed to send transaction: "
          (env.send (builtRequest secret address amt payload))) (fun summary =>
  okOr summary.final_transaction_id "transaction did not produce a transaction ID"))))

/-- The parsed CLI arguments (clap `Args`). -/
structure Args where
  wallet_secret : String
  wallet_dir : Option String
  amount : Nat
  payload : String
  escrow : String
  network : String
  rpc : String

/-- Embedding of `main` (main.rs lines 66-96): network selection, session
establishment, escrow parse, payload decode, deposit, and output.  Note
the order: `get_wallet` runs before the escrow address is parsed and
before the payload hex is decoded. -/
def mainRun (env : Env) (args : Args) : M Unit :=
  bindM
    (if args.network = "mainnet" then pureM NetworkId.mainnet
     else if args.network = "testnet" then pureM (NetworkId.testnet 10)
     else failM ("unknown network: " ++ args.network))
    (fun network_id =>
  bindM (eprintLn "initializing kaspa wallet...") (fun _ =>
  bindM (get_wallet env args.wallet_secret network_id args.rpc args.wallet_dir) (fun wallet =>
  bindM (liftPlain (env.parseAddress args.escrow)) (fun escrow_address =>
  bindM (liftPlain (hexDecode args.payload)) (fun payload =>
  bindM (eprintLn ("sending deposit: amount=" ++ toString args.amount
          ++ " sompi, escrow=" ++ escrow_address
          ++ ", payload_len=" ++ toString payload.length)) (fun _ =>
  bindM (deposit_with_payload env wallet args.wallet_secret escrow_address
          args.amount payload) (fun tx_id =>
  bindM (printLn tx_id) (fun _ =>
  bindM (eprintLn "transaction submitted successfully") (fun _ =>
  pureM ())))))))))

/-- A fully successful environment: every SDK call succeeds, the store has
one account with a receive address, and `send` yields a summary with a
final transaction id.  Used as the concrete input for witnesses. -/
def envOk : Env :=
  { setStorageFolder := fun _ => Except.ok ()
    localStore := Except.ok ()
    tryNew := fun _ => Except.ok ()
    start := Except.ok ()
    connect := fun _ _ => Except.ok ()
    isConnected := true
    walletOpen := fun _ _ _ _ => Except.ok ()
    accountsEnumerate := Except.ok [⟨7, some "kaspa:qqreceive"⟩]
    accountsSelect := fun _ => Except.ok ()
    accountsActivate := fun _ => Except.ok ()
    account := Except.ok ()
    send := fun _ => Except.ok ⟨some "txid0123"⟩
    parseAddress := fun a => Except.ok a }

/-- Select-call recognizer for trace filtering. -/
def Step.isSelect : Step → Bool
  | Step.selectStep _ => true
  | _ => false

/-- Activate-call recognizer for trace filtering. -/
def Step.isActivate : Step → Bool
  | Step.activateStep _ => true
  | _ => false

/-- Concrete arguments whose `--payload` is not valid hex. -/
def argsBadHex : Args :=
  ⟨"pw", none, 5, "zz", "kaspa:qqescrow", "mainnet", "wss://node"⟩

/-- A provider identical to the fully successful one except that the single
account descriptor carries no receive address. -/
def envNoAddr : Env :=
  { envOk with accountsEnumerate := Except.ok [⟨7, none⟩] }

end KaspaSender

namespace KaspaSender


/-- If one string is not a character-prefix of another, no error cause
appended to the first can equal the second: used to show the program's
fixed error messages are pairwise distinct from prefixed ones. -/
theorem append_ne_of_not_prefix (p m : String)
    (h : ¬ List.IsPrefix p.data m.data) : ∀ e, p ++ e ≠ m := by
  intro e he
  exact h ⟨e.data, by rw [← String.data_append, he]⟩



/-- The trace of one `deposit_with_payload` run: the get-account call, then
(if it succeeded) the send call with the built request. -/
theorem deposit_trace (env : Env) (w : Wallet) (secret : Secret)
    (address : Address) (amt : Nat) (payload : List Nat) :
    (deposit_with_payload env w secret address amt payload initState).1.trace =
      Step.getAccount ::
        (match env.account with
         | Except.error _ => []
         | Except.ok _ => [Step.sendStep (builtRequest secret address amt payload)]) := by
  cases hacct : env.account with
  | error e =>
      simp [deposit_with_payload, bindM, emitStep, liftRes, okOr, initState, hacct]
  | ok a =>
      cases hsend : env.send (builtRequest secret address amt payload) with
      | error e =>
          simp [deposit_with_payload, bindM, emitStep, liftRes, okOr, initState, hacct, hsend]
      | ok summ =>
          simp [deposit_with_payload, bindM, emitStep, liftRes, okOr, initState, hacct, hsend]

/-- C1: every send call made by the deposit-transaction builder carries no
payload field when the input payload has length 0, and carries exactly the
input bytes, unmodified, when it is non-empty. -/
theorem payload_attachment_rule (env : Env) (w : Wallet) (secret : Secret)
    (address : Address) (amt : Nat) (payload : List Nat) (req : SendRequest)
    (h : Step.sendStep req ∈
      (deposit_with_payload env w secret address amt payload initState).1.trace) :
    (payload.length = 0 → req.payload = none) ∧
    (payload.length ≠ 0 → req.payload = some payload) := by
  rw [deposit_trace] at h
  have hreq : req = builtRequest secret address amt payload := by
    cases hacct : env.account with
    | error e => rw [hacct] at h; simp at h
    | ok a => rw [hacct] at h; simp at h; exact h
  subst hreq
  refine ⟨fun h0 => ?_, fun hne => ?_⟩
  · simp [builtRequest, h0]
  · cases payload with
    | nil => simp at hne
    | cons b bs => simp [builtRequest]

/-- Witness for C1 at a concrete non-empty payload. -/
theorem payload_attachment_rule_witness :
    (Step.sendStep (builtRequest "pw" "kaspa:qqescrow" 5 [3, 0, 0, 0]) ∈
      (deposit_with_payload envOk Wallet.mk' "pw" "kaspa:qqescrow" 5 [3, 0, 0, 0]
        initState).1.trace) ∧
    ((([3, 0, 0, 0] : List Nat).length = 0 →
        (builtRequest "pw" "kaspa:qqescrow" 5 [3, 0, 0, 0]).payload = none) ∧
     (([3, 0, 0, 0] : List Nat).length ≠ 0 →
        (builtRequest "pw" "kaspa:qqescrow" 5 [3, 0, 0, 0]).payload = some [3, 0, 0, 0])) :=
  ⟨by decide,
   payload_attachment_rule envOk Wallet.mk' "pw" "kaspa:qqescrow" 5 [3, 0, 0, 0] _
     (by decide)⟩

/-- C8: every send call made by the deposit-transaction builder has exactly
one output, the destination address paired with the amount, a priority-fee
offset of zero, and no optional field populated (no fee rate, no payment
secret, no notifier; the consumed send interface carries no note/memo
parameter at all). -/
theorem single_output_zero_fee_no_memo (env : Env) (w : Wallet) (secret : Secret)
    (address : Address) (amt : Nat) (payload : List Nat) (req : SendRequest)
    (h : Step.sendStep req ∈
      (deposit_with_payload env w secret address amt payload initState).1.trace) :
    req.outputs = [(address, amt)] ∧ req.fees = 0 ∧ req.feeRate = none ∧
    req.paymentSecret = none ∧ req.notifier = none := by
  rw [deposit_trace] at h
  have hreq : req = builtRequest secret address amt payload := by
    cases hacct : env.account with
    | error e => rw [hacct] at h; simp at h
    | ok a => rw [hacct] at h; simp at h; exact h
  subst hreq
  simp [builtRequest]

/-- Witness for C8 at a concrete deposit. -/
theorem single_output_zero_fee_no_memo_witness :
    (Step.sendStep (builtRequest "pw" "kaspa:qqescrow" 9 [1, 2]) ∈
      (deposit_with_payload envOk Wallet.mk' "pw" "kaspa:qqescrow" 9 [1, 2]
        initState).1.trace) ∧
    ((builtRequest "pw" "kaspa:qqescrow" 9 [1, 2]).outputs = [("kaspa:qqescrow", 9)] ∧
     (builtRequest "pw" "kaspa:qqescrow" 9 [1, 2]).fees = 0 ∧
     (builtRequest "pw" "kaspa:qqescrow" 9 [1, 2]).feeRate = none ∧
     (builtRequest "pw" "kaspa:qqescrow" 9 [1, 2]).paymentSecret = none ∧
     (builtRequest "pw" "kaspa:qqescrow" 9 [1, 2]).notifier = none) :=
  ⟨by decide,
   single_output_zero_fee_no_memo envOk Wallet.mk' "pw" "kaspa:qqescrow" 9 [1, 2] _
     (by decide)⟩

end KaspaSender

namespace KaspaSender

/-- C5: if the connect call reports success but `is_connected` returns
false, session establishment fails with the distinct "wallet not
connected" error (no connect-failure message can coincide with it) and the
keychain-unlock call is never made. -/
theorem connected_check_failure_stops_before_unlock (env : Env) (s : Secret)
    (nid : NetworkId) (url : String) (sf : Option String)
    (hsf : ∀ f, env.setStorageFolder f = Except.ok ())
    (hls : env.localStore = Except.ok ())
    (htn : env.tryNew nid = Except.ok ())
    (hst : env.start = Except.ok ())
    (hc : env.connect (some url) nid = Except.ok ())
    (hic : env.isConnected = false) :
    (get_wallet env s nid url sf initState).2 = Outcome.err "wallet not connected" ∧
    (∀ sec fn b1 b2, Step.walletOpenStep sec fn b1 b2 ∉
        (get_wallet env s nid url sf initState).1.trace) ∧
    (∀ e, "failed to connect wallet: " ++ e ≠ "wallet not connected") := by
  refine ⟨?_, ?_, append_ne_of_not_prefix _ _ (by decide)⟩ <;>
    cases sf <;>
      simp [get_wallet, bindM, emitStep, liftRes, okOr, unwrapOption, pureM, failM,
        eprintLn, initState, hsf, hls, htn, hst, hc, hic]

/-- Witness for C5: a concrete provider that reports a successful connect
call yet `is_connected = false`. -/
theorem connected_check_failure_stops_before_unlock_witness :
    ((get_wallet { envOk with isConnected := false } "pw" NetworkId.mainnet
        "wss://node" none initState).2 = Outcome.err "wallet not connected" ∧
     (∀ sec fn b1 b2, Step.walletOpenStep sec fn b1 b2 ∉
        (get_wallet { envOk with isConnected := false } "pw" NetworkId.mainnet
          "wss://node" none initState).1.trace) ∧
     (∀ e, "failed to connect wallet: " ++ e ≠ "wallet not connected")) :=
  connected_check_failure_stops_before_unlock { envOk with isConnected := false }
    "pw" NetworkId.mainnet "wss://node" none (fun _ => rfl) rfl rfl rfl rfl rfl

/-- C6: when account enumeration succeeds with zero accounts, the whole run
fails with the "wallet has no accounts" error and no account-selection,
account-activation, get-account or send call is ever made. -/
theorem empty_wallet_error_no_further_steps (env : Env) (args : Args)
    (hnet : args.network = "mainnet" ∨ args.network = "testnet")
    (hsf : ∀ f, env.setStorageFolder f = Except.ok ())
    (hls : env.localStore = Except.ok ())
    (htn : ∀ nid, env.tryNew nid = Except.ok ())
    (hst : env.start = Except.ok ())
    (hc : ∀ u nid, env.connect u nid = Except.ok ())
    (hic : env.isConnected = true)
    (hwo : ∀ sec fn b1 b2, env.walletOpen sec fn b1 b2 = Except.ok ())
    (he : env.accountsEnumerate = Except.ok []) :
    (mainRun env args initState).2 = Outcome.err "wallet has no accounts" ∧
    (∀ i, Step.selectStep i ∉ (mainRun env args initState).1.trace) ∧
    (∀ l, Step.activateStep l ∉ (mainRun env args initState).1.trace) ∧
    Step.getAccount ∉ (mainRun env args initState).1.trace ∧
    (∀ r, Step.sendStep r ∉ (mainRun env args initState).1.trace) := by
  rcases hnet with hnet | hnet <;>
    cases hsfo : args.wallet_dir <;>
      simp [mainRun, get_wallet, bindM, emitStep, liftRes, liftPlain, okOr, unwrapOption,
        pureM, failM, eprintLn, printLn, initState, hnet, hsf, hls, htn, hst, hc, hic,
        hwo, he, hsfo]

/-- Witness for C6: a concrete provider whose enumeration returns zero
accounts. -/
theorem empty_wallet_error_no_further_steps_witness :
    ((mainRun { envOk with accountsEnumerate := Except.ok [] }
        ⟨"pw", none, 5, "03", "kaspa:qqescrow", "mainnet", "wss://node"⟩
        initState).2 = Outcome.err "wallet has no accounts" ∧
     (∀ i, Step.selectStep i ∉
        (mainRun { envOk with accountsEnumerate := Except.ok [] }
          ⟨"pw", none, 5, "03", "kaspa:qqescrow", "mainnet", "wss://node"⟩
          initState).1.trace) ∧
     (∀ l, Step.activateStep l ∉
        (mainRun { envOk with accountsEnumerate := Except.ok [] }
          ⟨"pw", none, 5, "03", "kaspa:qqescrow", "mainnet", "wss://node"⟩
          initState).1.trace) ∧
     Step.getAccount ∉
        (mainRun { envOk with accountsEnumerate := Except.ok [] }
          ⟨"pw", none, 5, "03", "kaspa:qqescrow", "mainnet", "wss://node"⟩
          initState).1.trace ∧
     (∀ r, Step.sendStep r ∉
        (mainRun { envOk with accountsEnumerate := Except.ok [] }
          ⟨"pw", none, 5, "03", "kaspa:qqescrow", "mainnet", "wss://node"⟩
          initState).1.trace)) :=
  empty_wallet_error_no_further_steps { envOk with accountsEnumerate := Except.ok [] }
    ⟨"pw", none, 5, "03", "kaspa:qqescrow", "mainnet", "wss://node"⟩
    (Or.inl rfl) (fun _ => rfl) rfl (fun _ => rfl) rfl (fun _ _ => rfl) rfl
    (fun _ _ _ _ => rfl) rfl

end KaspaSender

namespace KaspaSender


/-- Counterexample to C2 as stated: with an invalid `--payload` hex string
the run does fail with the hex-decode error, but the wallet store has
already been opened (indeed the whole session sequence has run), so the
input error is not raised before session work begins. -/
theorem input_error_after_session_work_cex :
    (mainRun envOk argsBadHex initState).2 =
      Outcome.err "Invalid character at position 0" ∧
    Step.openLocalStore ∈ (mainRun envOk argsBadHex initState).1.trace ∧
    Step.enumerate ∈ (mainRun envOk argsBadHex initState).1.trace := by
  decide

/-- C2 (amended): a hex-decode failure of `--payload`, and a parse failure
of `--escrow`, are fatal errors raised only after session establishment
(store opening, connection, unlock, account selection) has completed, but
before any transaction-construction work: the get-account and send calls
are never made. -/
theorem input_errors_after_session_before_send (env : Env) (args : Args)
    (e : String) (addr : Address)
    (hnet : args.network = "mainnet" ∨ args.network = "testnet")
    (hsf : ∀ f, env.setStorageFolder f = Except.ok ())
    (hls : env.localStore = Except.ok ())
    (htn : ∀ nid, env.tryNew nid = Except.ok ())
    (hst : env.start = Except.ok ())
    (hc : ∀ u nid, env.connect u nid = Except.ok ())
    (hic : env.isConnected = true)
    (hwo : ∀ sec fn b1 b2, env.walletOpen sec fn b1 b2 = Except.ok ())
    (d : AccountDescriptor) (accs : List AccountDescriptor) (ra : String)
    (he : env.accountsEnumerate = Except.ok (d :: accs))
    (hra : d.receive_address = some ra)
    (hsel : ∀ i, env.accountsSelect i = Except.ok ())
    (hact : ∀ l, env.accountsActivate l = Except.ok ())
    (hbad : env.parseAddress args.escrow = Except.error e ∨
            (env.parseAddress args.escrow = Except.ok addr ∧
             hexDecode args.payload = Except.error e)) :
    (mainRun env args initState).2 = Outcome.err e ∧
    Step.openLocalStore ∈ (mainRun env args initState).1.trace ∧
    Step.enumerate ∈ (mainRun env args initState).1.trace ∧
    (∀ i, Step.selectStep i ∈ (mainRun env args initState).1.trace →
      i = some d.account_id) ∧
    Step.getAccount ∉ (mainRun env args initState).1.trace ∧
    (∀ r, Step.sendStep r ∉ (mainRun env args initState).1.trace) := by
  rcases hnet with hnet | hnet <;>
    rcases hbad with hbad | ⟨hpa, hbad⟩ <;>
      cases hsfo : args.wallet_dir <;>
        simp [mainRun, get_wallet, deposit_with_payload, bindM, emitStep, liftRes,
          liftPlain, okOr, unwrapOption, pureM, failM, eprintLn, printLn, initState,
          hnet, hsf, hls, htn, hst, hc, hic, hwo, he, hra, hsel, hact, hbad, hsfo] <;>
        simp [hpa]

/-- Witness for the amended C2 at a concrete provider and arguments. -/
theorem input_errors_after_session_before_send_witness :
    ((mainRun envOk argsBadHex initState).2 =
        Outcome.err "Invalid character at position 0" ∧
     Step.openLocalStore ∈ (mainRun envOk argsBadHex initState).1.trace ∧
     Step.enumerate ∈ (mainRun envOk argsBadHex initState).1.trace ∧
     (∀ i, Step.selectStep i ∈ (mainRun envOk argsBadHex initState).1.trace →
        i = some (7 : Nat)) ∧
     Step.getAccount ∉ (mainRun envOk argsBadHex initState).1.trace ∧
     (∀ r, Step.sendStep r ∉ (mainRun envOk argsBadHex initState).1.trace)) :=
  input_errors_after_session_before_send envOk argsBadHex
    "Invalid character at position 0" "kaspa:qqescrow"
    (Or.inl rfl) (fun _ => rfl) rfl (fun _ => rfl) rfl (fun _ _ => rfl) rfl
    (fun _ _ _ _ => rfl) ⟨7, some "kaspa:qqreceive"⟩ [] "kaspa:qqreceive"
    rfl rfl (fun _ => rfl) (fun _ => rfl)
    (Or.inr ⟨rfl, rfl⟩)

end KaspaSender

namespace KaspaSender

/-- C4: when the send call succeeds but the returned summary carries no
final transaction identifier, the run fails with the dedicated
"transaction did not produce a transaction ID" error — which no
submission-failure message ("failed to send transaction: ...") can ever
equal — while the diagnostic stream already carries the "sending deposit"
line showing a transaction may have been broadcast, and nothing is printed
to standard output. -/
theorem missing_txid_error_distinct (env : Env) (args : Args)
    (addr : Address) (pl : List Nat)
    (hnet : args.network = "mainnet" ∨ args.network = "testnet")
    (hsf : ∀ f, env.setStorageFolder f = Except.ok ())
    (hls : env.localStore = Except.ok ())
    (htn : ∀ nid, env.tryNew nid = Except.ok ())
    (hst : env.start = Except.ok ())
    (hc : ∀ u nid, env.connect u nid = Except.ok ())
    (hic : env.isConnected = true)
    (hwo : ∀ sec fn b1 b2, env.walletOpen sec fn b1 b2 = Except.ok ())
    (d : AccountDescriptor) (accs : List AccountDescriptor) (ra : String)
    (he : env.accountsEnumerate = Except.ok (d :: accs))
    (hra : d.receive_address = some ra)
    (hsel : ∀ i, env.accountsSelect i = Except.ok ())
    (hact : ∀ l, env.accountsActivate l = Except.ok ())
    (hpa : env.parseAddress args.escrow = Except.ok addr)
    (hhx : hexDecode args.payload = Except.ok pl)
    (hacct : env.account = Except.ok ())
    (hsend : ∀ r, env.send r = Except.ok ⟨none⟩) :
    (mainRun env args initState).2 =
      Outcome.err "transaction did not produce a transaction ID" ∧
    ("sending deposit: amount=" ++ toString args.amount ++ " sompi, escrow=" ++ addr ++
        ", payload_len=" ++ toString pl.length) ∈
      (mainRun env args initState).1.stderrLines ∧
    (mainRun env args initState).1.stdoutLines = [] ∧
    (∀ e, "failed to send transaction: " ++ e ≠
      "transaction did not produce a transaction ID") := by
  refine ⟨?_, ?_, ?_, append_ne_of_not_prefix _ _ (by decide)⟩ <;>
    rcases hnet with hnet | hnet <;>
      cases hsfo : args.wallet_dir <;>
        simp [mainRun, get_wallet, deposit_with_payload, bindM, emitStep, liftRes,
          liftPlain, okOr, unwrapOption, pureM, failM, eprintLn, printLn, initState,
          hnet, hsf, hls, htn, hst, hc, hic, hwo, he, hra, hsel, hact, hpa, hhx,
          hacct, hsend, hsfo]

/-- Witness for C4: a concrete provider whose send succeeds with a summary
that has no final transaction id. -/
theorem missing_txid_error_distinct_witness :
    ((mainRun { envOk with send := fun _ => Except.ok ⟨none⟩ }
        ⟨"pw", none, 5, "0300", "kaspa:qqescrow", "mainnet", "wss://node"⟩
        initState).2 =
      Outcome.err "transaction did not produce a transaction ID" ∧
     ("sending deposit: amount=" ++ toString (5 : Nat) ++ " sompi, escrow=" ++
        "kaspa:qqescrow" ++ ", payload_len=" ++ toString ([3, 0] : List Nat).length) ∈
      (mainRun { envOk with send := fun _ => Except.ok ⟨none⟩ }
        ⟨"pw", none, 5, "0300", "kaspa:qqescrow", "mainnet", "wss://node"⟩
        initState).1.stderrLines ∧
     (mainRun { envOk with send := fun _ => Except.ok ⟨none⟩ }
        ⟨"pw", none, 5, "0300", "kaspa:qqescrow", "mainnet", "wss://node"⟩
        initState).1.stdoutLines = [] ∧
     (∀ e, "failed to send transaction: " ++ e ≠
        "transaction did not produce a transaction ID")) :=
  missing_txid_error_distinct { envOk with send := fun _ => Except.ok ⟨none⟩ }
    ⟨"pw", none, 5, "0300", "kaspa:qqescrow", "mainnet", "wss://node"⟩
    "kaspa:qqescrow" [3, 0]
    (Or.inl rfl) (fun _ => rfl) rfl (fun _ => rfl) rfl (fun _ _ => rfl) rfl
    (fun _ _ _ _ => rfl) ⟨7, some "kaspa:qqreceive"⟩ [] "kaspa:qqreceive"
    rfl rfl (fun _ => rfl) (fun _ => rfl) rfl rfl rfl (fun _ => rfl)

end KaspaSender

namespace KaspaSender

/-- C7: every successful session establishment enumerated a non-empty
account list, the account-selection calls in the trace are exactly one
call selecting the first enumerated account, and the account-activation
calls are exactly one call activating the singleton list holding that same
account (so exactly one account is both selected and activated). -/
theorem first_account_selected_and_activated (env : Env) (s : Secret)
    (nid : NetworkId) (url : String) (sf : Option String) (w : Wallet)
    (hok : (get_wallet env s nid url sf initState).2 = Outcome.ok w) :
    ∃ d accs ra, env.accountsEnumerate = Except.ok (d :: accs) ∧
      d.receive_address = some ra ∧
      (get_wallet env s nid url sf initState).1.trace.filter Step.isSelect =
        [Step.selectStep (some d.account_id)] ∧
      (get_wallet env s nid url sf initState).1.trace.filter Step.isActivate =
        [Step.activateStep (some [d.account_id])] := by
  cases sf with
  | none =>
    cases hls : env.localStore with
    | error e => simp_all [get_wallet, bindM, emitStep, liftRes, okOr, unwrapOption, pureM, failM, eprintLn, initState]
    | ok u2 =>
      cases htn : env.tryNew nid with
      | error e => simp_all [get_wallet, bindM, emitStep, liftRes, okOr, unwrapOption, pureM, failM, eprintLn, initState]
      | ok u3 =>
        cases hst : env.start with
        | error e => simp_all [get_wallet, bindM, emitStep, liftRes, okOr, unwrapOption, pureM, failM, eprintLn, initState]
        | ok u4 =>
          cases hc : env.connect (some url) nid with
          | error e => simp_all [get_wallet, bindM, emitStep, liftRes, okOr, unwrapOption, pureM, failM, eprintLn, initState]
          | ok u5 =>
            cases hic : env.isConnected with
            | false => simp_all [get_wallet, bindM, emitStep, liftRes, okOr, unwrapOption, pureM, failM, eprintLn, initState]
            | true =>
              cases hwo : env.walletOpen s none true false with
              | error e => simp_all [get_wallet, bindM, emitStep, liftRes, okOr, unwrapOption, pureM, failM, eprintLn, initState]
              | ok u6 =>
                cases he : env.accountsEnumerate with
                | error e => simp_all [get_wallet, bindM, emitStep, liftRes, okOr, unwrapOption, pureM, failM, eprintLn, initState]
                | ok accounts =>
                  cases accounts with
                  | nil => simp_all [get_wallet, bindM, emitStep, liftRes, okOr, unwrapOption, pureM, failM, eprintLn, initState]
                  | cons d accs =>
                    cases hsel : env.accountsSelect (some d.account_id) with
                    | error e => simp_all [get_wallet, bindM, emitStep, liftRes, okOr, unwrapOption, pureM, failM, eprintLn, initState]
                    | ok u7 =>
                      cases hact : env.accountsActivate (some [d.account_id]) with
                      | error e => simp_all [get_wallet, bindM, emitStep, liftRes, okOr, unwrapOption, pureM, failM, eprintLn, initState]
                      | ok u8 =>
                        cases hra : d.receive_address with
                        | none => simp_all [get_wallet, bindM, emitStep, liftRes, okOr, unwrapOption, pureM, failM, eprintLn, initState]
                        | some ra =>
                          refine ⟨d, accs, ra, rfl, hra, ?_, ?_⟩ <;>
                            simp_all [get_wallet, bindM, emitStep, liftRes, okOr, unwrapOption, pureM, failM, eprintLn, initState, Step.isSelect, Step.isActivate, List.filter]

  | some f =>
    cases hsfr : env.setStorageFolder f with
    | error e => simp_all [get_wallet, bindM, emitStep, liftRes, okOr, unwrapOption, pureM, failM, eprintLn, initState]
    | ok u =>
      cases hls : env.localStore with
      | error e => simp_all [get_wallet, bindM, emitStep, liftRes, okOr, unwrapOption, pureM, failM, eprintLn, initState]
      | ok u2 =>
        cases htn : env.tryNew nid with
        | error e => simp_all [get_wallet, bindM, emitStep, liftRes, okOr, unwrapOption, pureM, failM, eprintLn, initState]
        | ok u3 =>
          cases hst : env.start with
          | error e => simp_all [get_wallet, bindM, emitStep, liftRes, okOr, unwrapOption, pureM, failM, eprintLn, initState]
          | ok u4 =>
            cases hc : env.connect (some url) nid with
            | error e => simp_all [get_wallet, bindM, emitStep, liftRes, okOr, unwrapOption, pureM, failM, eprintLn, initState]
            | ok u5 =>
              cases hic : env.isConnected with
              | false => simp_all [get_wallet, bindM, emitStep, liftRes, okOr, unwrapOption, pureM, failM, eprintLn, initState]
              | true =>
                cases hwo : env.walletOpen s none true false with
                | error e => simp_all [get_wallet, bindM, emitStep, liftRes, okOr, unwrapOption, pureM, failM, eprintLn, initState]
                | ok u6 =>
                  cases he : env.accountsEnumerate with
                  | error e => simp_all [get_wallet, bindM, emitStep, liftRes, okOr, unwrapOption, pureM, failM, eprintLn, initState]
                  | ok accounts =>
                    cases accounts with
                    | nil => simp_all [get_wallet, bindM, emitStep, liftRes, okOr, unwrapOption, pureM, failM, eprintLn, initState]
                    | cons d accs =>
                      cases hsel : env.accountsSelect (some d.account_id) with
                      | error e => simp_all [get_wallet, bindM, emitStep, liftRes, okOr, unwrapOption, pureM, failM, eprintLn, initState]
                      | ok u7 =>
                        cases hact : env.accountsActivate (some [d.account_id]) with
                        | error e => simp_all [get_wallet, bindM, emitStep, liftRes, okOr, unwrapOption, pureM, failM, eprintLn, initState]
                        | ok u8 =>
                          cases hra : d.receive_address with
                          | none => simp_all [get_wallet, bindM, emitStep, liftRes, okOr, unwrapOption, pureM, failM, eprintLn, initState]
                          | some ra =>
                            refine ⟨d, accs, ra, rfl, hra, ?_, ?_⟩ <;>
                              simp_all [get_wallet, bindM, emitStep, liftRes, okOr, unwrapOption, pureM, failM, eprintLn, initState, Step.isSelect, Step.isActivate, List.filter]


/-- Witness for C7 at the fully successful concrete provider. -/
theorem first_account_selected_and_activated_witness :
    ∃ d accs ra,
      envOk.accountsEnumerate = Except.ok (d :: accs) ∧
      d.receive_address = some ra ∧
      (get_wallet envOk "pw" NetworkId.mainnet "wss://node" none
          initState).1.trace.filter Step.isSelect =
        [Step.selectStep (some d.account_id)] ∧
      (get_wallet envOk "pw" NetworkId.mainnet "wss://node" none
          initState).1.trace.filter Step.isActivate =
        [Step.activateStep (some [d.account_id])] :=
  first_account_selected_and_activated envOk "pw" NetworkId.mainnet "wss://node"
    none Wallet.mk' (by decide)

end KaspaSender

namespace KaspaSender


/-- Counterexample to C3 as stated: when every SDK call succeeds but the
wallet provider returns a first account descriptor with no receive
address, session establishment aborts with a panic (the readiness
diagnostic unwraps `receive_address`), not with a diagnosable error. -/
theorem session_establishment_panics_cex :
    (get_wallet envNoAddr "pw" NetworkId.mainnet "wss://node" none initState).2 =
      Outcome.panicked "unwrap on a None value" := by
  decide

/-- C3 (amended): every failure point of the session-establishment and
transaction-construction sequence produces an error outcome rather than a
panic, provided the wallet provider never returns a first account
descriptor lacking a receive address; without that proviso the readiness
diagnostic's unwrap can panic. -/
theorem no_panic_when_first_account_has_address (env : Env) (args : Args)
    (hgood : match env.accountsEnumerate with
             | Except.ok (d :: _) => d.receive_address ≠ none
             | _ => True) :
    ∀ m, (mainRun env args initState).2 ≠ Outcome.panicked m := by
  intro m
  by_cases hn1 : args.network = "mainnet"
  · cases hsfo : args.wallet_dir with
    | none =>
      cases hls : env.localStore with
      | error e => simp_all [mainRun, get_wallet, deposit_with_payload, builtRequest, bindM, emitStep, liftRes, liftPlain, okOr, unwrapOption, pureM, failM, eprintLn, printLn, initState]
      | ok u2 =>
        cases htn : env.tryNew NetworkId.mainnet with
        | error e => simp_all [mainRun, get_wallet, deposit_with_payload, builtRequest, bindM, emitStep, liftRes, liftPlain, okOr, unwrapOption, pureM, failM, eprintLn, printLn, initState]
        | ok u3 =>
          cases hst : env.start with
          | error e => simp_all [mainRun, get_wallet, deposit_with_payload, builtRequest, bindM, emitStep, liftRes, liftPlain, okOr, unwrapOption, pureM, failM, eprintLn, printLn, initState]
          | ok u4 =>
            cases hc : env.connect (some args.rpc) NetworkId.mainnet with
            | error e => simp_all [mainRun, get_wallet, deposit_with_payload, builtRequest, bindM, emitStep, liftRes, liftPlain, okOr, unwrapOption, pureM, failM, eprintLn, printLn, initState]
            | ok u5 =>
              cases hic : env.isConnected with
              | false => simp_all [mainRun, get_wallet, deposit_with_payload, builtRequest, bindM, emitStep, liftRes, liftPlain, okOr, unwrapOption, pureM, failM, eprintLn, printLn, initState]
              | true =>
                cases hwo : env.walletOpen args.wallet_secret none true false with
                | error e => simp_all [mainRun, get_wallet, deposit_with_payload, builtRequest, bindM, emitStep, liftRes, liftPlain, okOr, unwrapOption, pureM, failM, eprintLn, printLn, initState]
                | ok u6 =>
                  cases he : env.accountsEnumerate with
                  | error e => simp_all [mainRun, get_wallet, deposit_with_payload, builtRequest, bindM, emitStep, liftRes, liftPlain, okOr, unwrapOption, pureM, failM, eprintLn, printLn, initState]
                  | ok accounts =>
                    cases accounts with
                    | nil => simp_all [mainRun, get_wallet, deposit_with_payload, builtRequest, bindM, emitStep, liftRes, liftPlain, okOr, unwrapOption, pureM, failM, eprintLn, printLn, initState]
                    | cons d accs =>
                      cases hra : d.receive_address with
                      | none => simp_all [mainRun, get_wallet, deposit_with_payload, builtRequest, bindM, emitStep, liftRes, liftPlain, okOr, unwrapOption, pureM, failM, eprintLn, printLn, initState]
                      | some ra =>
                        cases hsel : env.accountsSelect (some d.account_id) with
                        | error e => simp_all [mainRun, get_wallet, deposit_with_payload, builtRequest, bindM, emitStep, liftRes, liftPlain, okOr, unwrapOption, pureM, failM, eprintLn, printLn, initState]
                        | ok u7 =>
                          cases hact : env.accountsActivate (some [d.account_id]) with
                          | error e => simp_all [mainRun, get_wallet, deposit_with_payload, builtRequest, bindM, emitStep, liftRes, liftPlain, okOr, unwrapOption, pureM, failM, eprintLn, printLn, initState]
                          | ok u8 =>
                            cases hpa : env.parseAddress args.escrow with
                            | error e => simp_all [mainRun, get_wallet, deposit_with_payload, builtRequest, bindM, emitStep, liftRes, liftPlain, okOr, unwrapOption, pureM, failM, eprintLn, printLn, initState]
                            | ok addr =>
                              cases hhx : hexDecode args.payload with
                              | error e => simp_all [mainRun, get_wallet, deposit_with_payload, builtRequest, bindM, emitStep, liftRes, liftPlain, okOr, unwrapOption, pureM, failM, eprintLn, printLn, initState]
                              | ok pl =>
                                cases hacct : env.account with
                                | error e => simp_all [mainRun, get_wallet, deposit_with_payload, builtRequest, bindM, emitStep, liftRes, liftPlain, okOr, unwrapOption, pureM, failM, eprintLn, printLn, initState]
                                | ok u9 =>
                                  cases hsend : env.send (builtRequest args.wallet_secret addr args.amount pl) with
                                  | error e => simp_all [mainRun, get_wallet, deposit_with_payload, builtRequest, bindM, emitStep, liftRes, liftPlain, okOr, unwrapOption, pureM, failM, eprintLn, printLn, initState]
                                  | ok summ =>
                                    cases hfin : summ.final_transaction_id with
                                    | none => simp_all [mainRun, get_wallet, deposit_with_payload, builtRequest, bindM, emitStep, liftRes, liftPlain, okOr, unwrapOption, pureM, failM, eprintLn, printLn, initState]
                                    | some tx => simp_all [mainRun, get_wallet, deposit_with_payload, builtRequest, bindM, emitStep, liftRes, liftPlain, okOr, unwrapOption, pureM, failM, eprintLn, printLn, initState]

    | some f =>
      cases hsfr : env.setStorageFolder f with
      | error e => simp_all [mainRun, get_wallet, deposit_with_payload, builtRequest, bindM, emitStep, liftRes, liftPlain, okOr, unwrapOption, pureM, failM, eprintLn, printLn, initState]
      | ok u =>
        cases hls : env.localStore with
        | error e => simp_all [mainRun, get_wallet, deposit_with_payload, builtRequest, bindM, emitStep, liftRes, liftPlain, okOr, unwrapOption, pureM, failM, eprintLn, printLn, initState]
        | ok u2 =>
          cases htn : env.tryNew NetworkId.mainnet with
          | error e => simp_all [mainRun, get_wallet, deposit_with_payload, builtRequest, bindM, emitStep, liftRes, liftPlain, okOr, unwrapOption, pureM, failM, eprintLn, printLn, initState]
          | ok u3 =>
            cases hst : env.start with
            | error e => simp_all [mainRun, get_wallet, deposit_with_payload, builtRequest, bindM, emitStep, liftRes, liftPlain, okOr, unwrapOption, pureM, failM, eprintLn, printLn, initState]
            | ok u4 =>
              cases hc : env.connect (some args.rpc) NetworkId.mainnet with
              | error e => simp_all [mainRun, get_wallet, deposit_with_payload, builtRequest, bindM, emitStep, liftRes, liftPlain, okOr, unwrapOption, pureM, failM, eprintLn, printLn, initState]
              | ok u5 =>
                cases hic : env.isConnected with
                | false => simp_all [mainRun, get_wallet, deposit_with_payload, builtRequest, bindM, emitStep, liftRes, liftPlain, okOr, unwrapOption, pureM, failM, eprintLn, printLn, initState]
                | true =>
                  cases hwo : env.walletOpen args.wallet_secret none true false with
                  | error e => simp_all [mainRun, get_wallet, deposit_with_payload, builtRequest, bindM, emitStep, liftRes, liftPlain, okOr, unwrapOption, pureM, failM, eprintLn, printLn, initState]
                  | ok u6 =>
                    cases he : env.accountsEnumerate with
                    | error e => simp_all [mainRun, get_wallet, deposit_with_payload, builtRequest, bindM, emitStep, liftRes, liftPlain, okOr, unwrapOption, pureM, failM, eprintLn, printLn, initState]
                    | ok accounts =>
                      cases accounts with
                      | nil => simp_all [mainRun, get_wallet, deposit_with_payload, builtRequest, bindM, emitStep, liftRes, liftPlain, okOr, unwrapOption, pureM, failM, eprintLn, printLn, initState]
                      | cons d accs =>
                        cases hra : d.receive_address with
                        | none => simp_all [mainRun, get_wallet, deposit_with_payload, builtRequest, bindM, emitStep, liftRes, liftPlain, okOr, unwrapOption, pureM, failM, eprintLn, printLn, initState]
                        | some ra =>
                          cases hsel : env.accountsSelect (some d.account_id) with
                          | error e => simp_all [mainRun, get_wallet, deposit_with_payload, builtRequest, bindM, emitStep, liftRes, liftPlain, okOr, unwrapOption, pureM, failM, eprintLn, printLn, initState]
                          | ok u7 =>
                            cases hact : env.accountsActivate (some [d.account_id]) with
                            | error e => simp_all [mainRun, get_wallet, deposit_with_payload, builtRequest, bindM, emitStep, liftRes, liftPlain, okOr, unwrapOption, pureM, failM, eprintLn, printLn, initState]
                            | ok u8 =>
                              cases hpa : env.parseAddress args.escrow with
                              | error e => simp_all [mainRun, get_wallet, deposit_with_payload, builtRequest, bindM, emitStep, liftRes, liftPlain, okOr, unwrapOption, pureM, failM, eprintLn, printLn, initState]
                              | ok addr =>
                                cases hhx : hexDecode args.payload with
                                | error e => simp_all [mainRun, get_wallet, deposit_with_payload, builtRequest, bindM, emitStep, liftRes, liftPlain, okOr, unwrapOption, pureM, failM, eprintLn, printLn, initState]
                                | ok pl =>
                                  cases hacct : env.account with
                                  | error e => simp_all [mainRun, get_wallet, deposit_with_payload, builtRequest, bindM, emitStep, liftRes, liftPlain, okOr, unwrapOption, pureM, failM, eprintLn, printLn, initState]
                                  | ok u9 =>
                                    cases hsend : env.send (builtRequest args.wallet_secret addr args.amount pl) with
                                    | error e => simp_all [mainRun, get_wallet, deposit_with_payload, builtRequest, bindM, emitStep, liftRes, liftPlain, okOr, unwrapOption, pureM, failM, eprintLn, printLn, initState]
                                    | ok summ =>
                                      cases hfin : summ.final_transaction_id with
                                      | none => simp_all [mainRun, get_wallet, deposit_with_payload, builtRequest, bindM, emitStep, liftRes, liftPlain, okOr, unwrapOption, pureM, failM, eprintLn, printLn, initState]
                                      | some tx => simp_all [mainRun, get_wallet, deposit_with_payload, builtRequest, bindM, emitStep, liftRes, liftPlain, okOr, unwrapOption, pureM, failM, eprintLn, printLn, initState]

  · by_cases hn2 : args.network = "testnet"
    · cases hsfo : args.wallet_dir with
      | none =>
        cases hls : env.localStore with
        | error e => simp_all [mainRun, get_wallet, deposit_with_payload, builtRequest, bindM, emitStep, liftRes, liftPlain, okOr, unwrapOption, pureM, failM, eprintLn, printLn, initState]
        | ok u2 =>
          cases htn : env.tryNew (NetworkId.testnet 10) with
          | error e => simp_all [mainRun, get_wallet, deposit_with_payload, builtRequest, bindM, emitStep, liftRes, liftPlain, okOr, unwrapOption, pureM, failM, eprintLn, printLn, initState]
          | ok u3 =>
            cases hst : env.start with
            | error e => simp_all [mainRun, get_wallet, deposit_with_payload, builtRequest, bindM, emitStep, liftRes, liftPlain, okOr, unwrapOption, pureM, failM, eprintLn, printLn, initState]
            | ok u4 =>
              cases hc : env.connect (some args.rpc) (NetworkId.testnet 10) with
              | error e => simp_all [mainRun, get_wallet, deposit_with_payload, builtRequest, bindM, emitStep, liftRes, liftPlain, okOr, unwrapOption, pureM, failM, eprintLn, printLn, initState]
              | ok u5 =>
                cases hic : env.isConnected with
                | false => simp_all [mainRun, get_wallet, deposit_with_payload, builtRequest, bindM, emitStep, liftRes, liftPlain, okOr, unwrapOption, pureM, failM, eprintLn, printLn, initState]
                | true =>
                  cases hwo : env.walletOpen args.wallet_secret none true false with
                  | error e => simp_all [mainRun, get_wallet, deposit_with_payload, builtRequest, bindM, emitStep, liftRes, liftPlain, okOr, unwrapOption, pureM, failM, eprintLn, printLn, initState]
                  | ok u6 =>
                    cases he : env.accountsEnumerate with
                    | error e => simp_all [mainRun, get_wallet, deposit_with_payload, builtRequest, bindM, emitStep, liftRes, liftPlain, okOr, unwrapOption, pureM, failM, eprintLn, printLn, initState]
                    | ok accounts =>
                      cases accounts with
                      | nil => simp_all [mainRun, get_wallet, deposit_with_payload, builtRequest, bindM, emitStep, liftRes, liftPlain, okOr, unwrapOption, pureM, failM, eprintLn, printLn, initState]
                      | cons d accs =>
                        cases hra : d.receive_address with
                        | none => simp_all [mainRun, get_wallet, deposit_with_payload, builtRequest, bindM, emitStep, liftRes, liftPlain, okOr, unwrapOption, pureM, failM, eprintLn, printLn, initState]
                        | some ra =>
                          cases hsel : env.accountsSelect (some d.account_id) with
                          | error e => simp_all [mainRun, get_wallet, deposit_with_payload, builtRequest, bindM, emitStep, liftRes, liftPlain, okOr, unwrapOption, pureM, failM, eprintLn, printLn, initState]
                          | ok u7 =>
                            cases hact : env.accountsActivate (some [d.account_id]) with
                            | error e => simp_all [mainRun, get_wallet, deposit_with_payload, builtRequest, bindM, emitStep, liftRes, liftPlain, okOr, unwrapOption, pureM, failM, eprintLn, printLn, initState]
                            | ok u8 =>
                              cases hpa : env.parseAddress args.escrow with
                              | error e => simp_all [mainRun, get_wallet, deposit_with_payload, builtRequest, bindM, emitStep, liftRes, liftPlain, okOr, unwrapOption, pureM, failM, eprintLn, printLn, initState]
                              | ok addr =>
                                cases hhx : hexDecode args.payload with
                                | error e => simp_all [mainRun, get_wallet, deposit_with_payload, builtRequest, bindM, emitStep, liftRes, liftPlain, okOr, unwrapOption, pureM, failM, eprintLn, printLn, initState]
                                | ok pl =>
                                  cases hacct : env.account with
                                  | error e => simp_all [mainRun, get_wallet, deposit_with_payload, builtRequest, bindM, emitStep, liftRes, liftPlain, okOr, unwrapOption, pureM, failM, eprintLn, printLn, initState]
                                  | ok u9 =>
                                    cases hsend : env.send (builtRequest args.wallet_secret addr args.amount pl) with
                                    | error e => simp_all [mainRun, get_wallet, deposit_with_payload, builtRequest, bindM, emitStep, liftRes, liftPlain, okOr, unwrapOption, pureM, failM, eprintLn, printLn, initState]
                                    | ok summ =>
                                      cases hfin : summ.final_transaction_id with
                                      | none => simp_all [mainRun, get_wallet, deposit_with_payload, builtRequest, bindM, emitStep, liftRes, liftPlain, okOr, unwrapOption, pureM, failM, eprintLn, printLn, initState]
                                      | some tx => simp_all [mainRun, get_wallet, deposit_with_payload, builtRequest, bindM, emitStep, liftRes, liftPlain, okOr, unwrapOption, pureM, failM, eprintLn, printLn, initState]

      | some f =>
        cases hsfr : env.setStorageFolder f with
        | error e => simp_all [mainRun, get_wallet, deposit_with_payload, builtRequest, bindM, emitStep, liftRes, liftPlain, okOr, unwrapOption, pureM, failM, eprintLn, printLn, initState]
        | ok u =>
          cases hls : env.localStore with
          | error e => simp_all [mainRun, get_wallet, deposit_with_payload, builtRequest, bindM, emitStep, liftRes, liftPlain, okOr, unwrapOption, pureM, failM, eprintLn, printLn, initState]
          | ok u2 =>
            cases htn : env.tryNew (NetworkId.testnet 10) with
            | error e => simp_all [mainRun, get_wallet, deposit_with_payload, builtRequest, bindM, emitStep, liftRes, liftPlain, okOr, unwrapOption, pureM, failM, eprintLn, printLn, initState]
            | ok u3 =>
              cases hst : env.start with
              | error e => simp_all [mainRun, get_wallet, deposit_with_payload, builtRequest, bindM, emitStep, liftRes, liftPlain, okOr, unwrapOption, pureM, failM, eprintLn, printLn, initState]
              | ok u4 =>
                cases hc : env.connect (some args.rpc) (NetworkId.testnet 10) with
                | error e => simp_all [mainRun, get_wallet, deposit_with_payload, builtRequest, bindM, emitStep, liftRes, liftPlain, okOr, unwrapOption, pureM, failM, eprintLn, printLn, initState]
                | ok u5 =>
                  cases hic : env.isConnected with
                  | false => simp_all [mainRun, get_wallet, deposit_with_payload, builtRequest, bindM, emitStep, liftRes, liftPlain, okOr, unwrapOption, pureM, failM, eprintLn, printLn, initState]
                  | true =>
                    cases hwo : env.walletOpen args.wallet_secret none true false with
                    | error e => simp_all [mainRun, get_wallet, deposit_with_payload, builtRequest, bindM, emitStep, liftRes, liftPlain, okOr, unwrapOption, pureM, failM, eprintLn, printLn, initState]
                    | ok u6 =>
                      cases he : env.accountsEnumerate with
                      | error e => simp_all [mainRun, get_wallet, deposit_with_payload, builtRequest, bindM, emitStep, liftRes, liftPlain, okOr, unwrapOption, pureM, failM, eprintLn, printLn, initState]
                      | ok accounts =>
                        cases accounts with
                        | nil => simp_all [mainRun, get_wallet, deposit_with_payload, builtRequest, bindM, emitStep, liftRes, liftPlain, okOr, unwrapOption, pureM, failM, eprintLn, printLn, initState]
                        | cons d accs =>
                          cases hra : d.receive_address with
                          | none => simp_all [mainRun, get_wallet, deposit_with_payload, builtRequest, bindM, emitStep, liftRes, liftPlain, okOr, unwrapOption, pureM, failM, eprintLn, printLn, initState]
                          | some ra =>
                            cases hsel : env.accountsSelect (some d.account_id) with
                            | error e => simp_all [mainRun, get_wallet, deposit_with_payload, builtRequest, bindM, emitStep, liftRes, liftPlain, okOr, unwrapOption, pureM, failM, eprintLn, printLn, initState]
                            | ok u7 =>
                              cases hact : env.accountsActivate (some [d.account_id]) with
                              | error e => simp_all [mainRun, get_wallet, deposit_with_payload, builtRequest, bindM, emitStep, liftRes, liftPlain, okOr, unwrapOption, pureM, failM, eprintLn, printLn, initState]
                              | ok u8 =>
                                cases hpa : env.parseAddress args.escrow with
                                | error e => simp_all [mainRun, get_wallet, deposit_with_payload, builtRequest, bindM, emitStep, liftRes, liftPlain, okOr, unwrapOption, pureM, failM, eprintLn, printLn, initState]
                                | ok addr =>
                                  cases hhx : hexDecode args.payload with
                                  | error e => simp_all [mainRun, get_wallet, deposit_with_payload, builtRequest, bindM, emitStep, liftRes, liftPlain, okOr, unwrapOption, pureM, failM, eprintLn, printLn, initState]
                                  | ok pl =>
                                    cases hacct : env.account with
                                    | error e => simp_all [mainRun, get_wallet, deposit_with_payload, builtRequest, bindM, emitStep, liftRes, liftPlain, okOr, unwrapOption, pureM, failM, eprintLn, printLn, initState]
                                    | ok u9 =>
                                      cases hsend : env.send (builtRequest args.wallet_secret addr args.amount pl) with
                                      | error e => simp_all [mainRun, get_wallet, deposit_with_payload, builtRequest, bindM, emitStep, liftRes, liftPlain, okOr, unwrapOption, pureM, failM, eprintLn, printLn, initState]
                                      | ok summ =>
                                        cases hfin : summ.final_transaction_id with
                                        | none => simp_all [mainRun, get_wallet, deposit_with_payload, builtRequest, bindM, emitStep, liftRes, liftPlain, okOr, unwrapOption, pureM, failM, eprintLn, printLn, initState]
                                        | some tx => simp_all [mainRun, get_wallet, deposit_with_payload, builtRequest, bindM, emitStep, liftRes, liftPlain, okOr, unwrapOption, pureM, failM, eprintLn, printLn, initState]

    · simp [mainRun, bindM, pureM, failM, eprintLn, initState, hn1, hn2]

/-- Witness for the amended C3 at the fully successful concrete provider. -/
theorem no_panic_when_first_account_has_address_witness :
    (mainRun envOk ⟨"pw", none, 5, "03", "kaspa:qqescrow", "mainnet", "wss://node"⟩
        initState).2 ≠ Outcome.panicked "boom" :=
  no_panic_when_first_account_has_address envOk
    ⟨"pw", none, 5, "03", "kaspa:qqescrow", "mainnet", "wss://node"⟩
    (by simp [envOk]) "boom"

end KaspaSender

namespace KaspaSender

set_option maxHeartbeats 2000000 in
/-- C9: every successful invocation made exactly one send call, the send
summary carried a final transaction identifier, and standard output is
exactly one line holding that identifier and nothing else (all other
messages having gone to the diagnostic stream). -/
theorem stdout_exactly_txid_on_success (env : Env) (args : Args)
    (hok : (mainRun env args initState).2 = Outcome.ok ()) :
    ∃ req summ tx,
      Step.sendStep req ∈ (mainRun env args initState).1.trace ∧
      env.send req = Except.ok summ ∧
      summ.final_transaction_id = some tx ∧
      (mainRun env args initState).1.stdoutLines = [tx] := by
  by_cases hn1 : args.network = "mainnet"
  · cases hsfo : args.wallet_dir with
    | none =>
      cases hls : env.localStore with
      | error e => simp_all [mainRun, get_wallet, deposit_with_payload, builtRequest, bindM, emitStep, liftRes, liftPlain, okOr, unwrapOption, pureM, failM, eprintLn, printLn, initState]
      | ok u2 =>
        cases htn : env.tryNew NetworkId.mainnet with
        | error e => simp_all [mainRun, get_wallet, deposit_with_payload, builtRequest, bindM, emitStep, liftRes, liftPlain, okOr, unwrapOption, pureM, failM, eprintLn, printLn, initState]
        | ok u3 =>
          cases hst : env.start with
          | error e => simp_all [mainRun, get_wallet, deposit_with_payload, builtRequest, bindM, emitStep, liftRes, liftPlain, okOr, unwrapOption, pureM, failM, eprintLn, printLn, initState]
          | ok u4 =>
            cases hc : env.connect (some args.rpc) NetworkId.mainnet with
            | error e => simp_all [mainRun, get_wallet, deposit_with_payload, builtRequest, bindM, emitStep, liftRes, liftPlain, okOr, unwrapOption, pureM, failM, eprintLn, printLn, initState]
            | ok u5 =>
              cases hic : env.isConnected with
              | false => simp_all [mainRun, get_wallet, deposit_with_payload, builtRequest, bindM, emitStep, liftRes, liftPlain, okOr, unwrapOption, pureM, failM, eprintLn, printLn, initState]
              | true =>
                cases hwo : env.walletOpen args.wallet_secret none true false with
                | error e => simp_all [mainRun, get_wallet, deposit_with_payload, builtRequest, bindM, emitStep, liftRes, liftPlain, okOr, unwrapOption, pureM, failM, eprintLn, printLn, initState]
                | ok u6 =>
                  cases he : env.accountsEnumerate with
                  | error e => simp_all [mainRun, get_wallet, deposit_with_payload, builtRequest, bindM, emitStep, liftRes, liftPlain, okOr, unwrapOption, pureM, failM, eprintLn, printLn, initState]
                  | ok accounts =>
                    cases accounts with
                    | nil => simp_all [mainRun, get_wallet, deposit_with_payload, builtRequest, bindM, emitStep, liftRes, liftPlain, okOr, unwrapOption, pureM, failM, eprintLn, printLn, initState]
                    | cons d accs =>
                      cases hra : d.receive_address with
                      | none =>
                        cases hsel : env.accountsSelect (some d.account_id) with
                        | error e => simp_all [mainRun, get_wallet, deposit_with_payload, builtRequest, bindM, emitStep, liftRes, liftPlain, okOr, unwrapOption, pureM, failM, eprintLn, printLn, initState]
                        | ok u7 =>
                          cases hact : env.accountsActivate (some [d.account_id]) with
                          | error e => simp_all [mainRun, get_wallet, deposit_with_payload, builtRequest, bindM, emitStep, liftRes, liftPlain, okOr, unwrapOption, pureM, failM, eprintLn, printLn, initState]
                          | ok u8 => simp_all [mainRun, get_wallet, deposit_with_payload, builtRequest, bindM, emitStep, liftRes, liftPlain, okOr, unwrapOption, pureM, failM, eprintLn, printLn, initState]
                      | some ra =>
                        cases hsel : env.accountsSelect (some d.account_id) with
                        | error e => simp_all [mainRun, get_wallet, deposit_with_payload, builtRequest, bindM, emitStep, liftRes, liftPlain, okOr, unwrapOption, pureM, failM, eprintLn, printLn, initState]
                        | ok u7 =>
                          cases hact : env.accountsActivate (some [d.account_id]) with
                          | error e => simp_all [mainRun, get_wallet, deposit_with_payload, builtRequest, bindM, emitStep, liftRes, liftPlain, okOr, unwrapOption, pureM, failM, eprintLn, printLn, initState]
                          | ok u8 =>
                            cases hpa : env.parseAddress args.escrow with
                            | error e => simp_all [mainRun, get_wallet, deposit_with_payload, builtRequest, bindM, emitStep, liftRes, liftPlain, okOr, unwrapOption, pureM, failM, eprintLn, printLn, initState]
                            | ok addr =>
                              cases hhx : hexDecode args.payload with
                              | error e => simp_all [mainRun, get_wallet, deposit_with_payload, builtRequest, bindM, emitStep, liftRes, liftPlain, okOr, unwrapOption, pureM, failM, eprintLn, printLn, initState]
                              | ok pl =>
                                cases hacct : env.account with
                                | error e => simp_all [mainRun, get_wallet, deposit_with_payload, builtRequest, bindM, emitStep, liftRes, liftPlain, okOr, unwrapOption, pureM, failM, eprintLn, printLn, initState]
                                | ok u9 =>
                                  cases hsend : env.send (builtRequest args.wallet_secret addr args.amount pl) with
                                  | error e => simp_all [mainRun, get_wallet, deposit_with_payload, builtRequest, bindM, emitStep, liftRes, liftPlain, okOr, unwrapOption, pureM, failM, eprintLn, printLn, initState]
                                  | ok summ =>
                                    cases hfin : summ.final_transaction_id with
                                    | none => simp_all [mainRun, get_wallet, deposit_with_payload, builtRequest, bindM, emitStep, liftRes, liftPlain, okOr, unwrapOption, pureM, failM, eprintLn, printLn, initState]
                                    | some tx =>
                                      exact ⟨builtRequest args.wallet_secret addr args.amount pl, summ, tx,
            by simp_all [mainRun, get_wallet, deposit_with_payload, builtRequest, bindM, emitStep, liftRes, liftPlain, okOr, unwrapOption, pureM, failM, eprintLn, printLn, initState], hsend, hfin, by simp_all [mainRun, get_wallet, deposit_with_payload, builtRequest, bindM, emitStep, liftRes, liftPlain, okOr, unwrapOption, pureM, failM, eprintLn, printLn, initState]⟩

    | some f =>
      cases hsfr : env.setStorageFolder f with
      | error e => simp_all [mainRun, get_wallet, deposit_with_payload, builtRequest, bindM, emitStep, liftRes, liftPlain, okOr, unwrapOption, pureM, failM, eprintLn, printLn, initState]
      | ok u =>
        cases hls : env.localStore with
        | error e => simp_all [mainRun, get_wallet, deposit_with_payload, builtRequest, bindM, emitStep, liftRes, liftPlain, okOr, unwrapOption, pureM, failM, eprintLn, printLn, initState]
        | ok u2 =>
          cases htn : env.tryNew NetworkId.mainnet with
          | error e => simp_all [mainRun, get_wallet, deposit_with_payload, builtRequest, bindM, emitStep, liftRes, liftPlain, okOr, unwrapOption, pureM, failM, eprintLn, printLn, initState]
          | ok u3 =>
            cases hst : env.start with
            | error e => simp_all [mainRun, get_wallet, deposit_with_payload, builtRequest, bindM, emitStep, liftRes, liftPlain, okOr, unwrapOption, pureM, failM, eprintLn, printLn, initState]
            | ok u4 =>
              cases hc : env.connect (some args.rpc) NetworkId.mainnet with
              | error e => simp_all [mainRun, get_wallet, deposit_with_payload, builtRequest, bindM, emitStep, liftRes, liftPlain, okOr, unwrapOption, pureM, failM, eprintLn, printLn, initState]
              | ok u5 =>
                cases hic : env.isConnected with
                | false => simp_all [mainRun, get_wallet, deposit_with_payload, builtRequest, bindM, emitStep, liftRes, liftPlain, okOr, unwrapOption, pureM, failM, eprintLn, printLn, initState]
                | true =>
                  cases hwo : env.walletOpen args.wallet_secret none true false with
                  | error e => simp_all [mainRun, get_wallet, deposit_with_payload, builtRequest, bindM, emitStep, liftRes, liftPlain, okOr, unwrapOption, pureM, failM, eprintLn, printLn, initState]
                  | ok u6 =>
                    cases he : env.accountsEnumerate with
                    | error e => simp_all [mainRun, get_wallet, deposit_with_payload, builtRequest, bindM, emitStep, liftRes, liftPlain, okOr, unwrapOption, pureM, failM, eprintLn, printLn, initState]
                    | ok accounts =>
                      cases accounts with
                      | nil => simp_all [mainRun, get_wallet, deposit_with_payload, builtRequest, bindM, emitStep, liftRes, liftPlain, okOr, unwrapOption, pureM, failM, eprintLn, printLn, initState]
                      | cons d accs =>
                        cases hra : d.receive_address with
                        | none =>
                          cases hsel : env.accountsSelect (some d.account_id) with
                          | error e => simp_all [mainRun, get_wallet, deposit_with_payload, builtRequest, bindM, emitStep, liftRes, liftPlain, okOr, unwrapOption, pureM, failM, eprintLn, printLn, initState]
                          | ok u7 =>
                            cases hact : env.accountsActivate (some [d.account_id]) with
                            | error e => simp_all [mainRun, get_wallet, deposit_with_payload, builtRequest, bindM, emitStep, liftRes, liftPlain, okOr, unwrapOption, pureM, failM, eprintLn, printLn, initState]
                            | ok u8 => simp_all [mainRun, get_wallet, deposit_with_payload, builtRequest, bindM, emitStep, liftRes, liftPlain, okOr, unwrapOption, pureM, failM, eprintLn, printLn, initState]
                        | some ra =>
                          cases hsel : env.accountsSelect (some d.account_id) with
                          | error e => simp_all [mainRun, get_wallet, deposit_with_payload, builtRequest, bindM, emitStep, liftRes, liftPlain, okOr, unwrapOption, pureM, failM, eprintLn, printLn, initState]
                          | ok u7 =>
                            cases hact : env.accountsActivate (some [d.account_id]) with
                            | error e => simp_all [mainRun, get_wallet, deposit_with_payload, builtRequest, bindM, emitStep, liftRes, liftPlain, okOr, unwrapOption, pureM, failM, eprintLn, printLn, initState]
                            | ok u8 =>
                              cases hpa : env.parseAddress args.escrow with
                              | error e => simp_all [mainRun, get_wallet, deposit_with_payload, builtRequest, bindM, emitStep, liftRes, liftPlain, okOr, unwrapOption, pureM, failM, eprintLn, printLn, initState]
                              | ok addr =>
                                cases hhx : hexDecode args.payload with
                                | error e => simp_all [mainRun, get_wallet, deposit_with_payload, builtRequest, bindM, emitStep, liftRes, liftPlain, okOr, unwrapOption, pureM, failM, eprintLn, printLn, initState]
                                | ok pl =>
                                  cases hacct : env.account with
                                  | error e => simp_all [mainRun, get_wallet, deposit_with_payload, builtRequest, bindM, emitStep, liftRes, liftPlain, okOr, unwrapOption, pureM, failM, eprintLn, printLn, initState]
                                  | ok u9 =>
                                    cases hsend : env.send (builtRequest args.wallet_secret addr args.amount pl) with
                                    | error e => simp_all [mainRun, get_wallet, deposit_with_payload, builtRequest, bindM, emitStep, liftRes, liftPlain, okOr, unwrapOption, pureM, failM, eprintLn, printLn, initState]
                                    | ok summ =>
                                      cases hfin : summ.final_transaction_id with
                                      | none => simp_all [mainRun, get_wallet, deposit_with_payload, builtRequest, bindM, emitStep, liftRes, liftPlain, okOr, unwrapOption, pureM, failM, eprintLn, printLn, initState]
                                      | some tx =>
                                        exact ⟨builtRequest args.wallet_secret addr args.amount pl, summ, tx,
              by simp_all [mainRun, get_wallet, deposit_with_payload, builtRequest, bindM, emitStep, liftRes, liftPlain, okOr, unwrapOption, pureM, failM, eprintLn, printLn, initState], hsend, hfin, by simp_all [mainRun, get_wallet, deposit_with_payload, builtRequest, bindM, emitStep, liftRes, liftPlain, okOr, unwrapOption, pureM, failM, eprintLn, printLn, initState]⟩

  · by_cases hn2 : args.network = "testnet"
    · cases hsfo : args.wallet_dir with
      | none =>
        cases hls : env.localStore with
        | error e => simp_all [mainRun, get_wallet, deposit_with_payload, builtRequest, bindM, emitStep, liftRes, liftPlain, okOr, unwrapOption, pureM, failM, eprintLn, printLn, initState]
        | ok u2 =>
          cases htn : env.tryNew (NetworkId.testnet 10) with
          | error e => simp_all [mainRun, get_wallet, deposit_with_payload, builtRequest, bindM, emitStep, liftRes, liftPlain, okOr, unwrapOption, pureM, failM, eprintLn, printLn, initState]
          | ok u3 =>
            cases hst : env.start with
            | error e => simp_all [mainRun, get_wallet, deposit_with_payload, builtRequest, bindM, emitStep, liftRes, liftPlain, okOr, unwrapOption, pureM, failM, eprintLn, printLn, initState]
            | ok u4 =>
              cases hc : env.connect (some args.rpc) (NetworkId.testnet 10) with
              | error e => simp_all [mainRun, get_wallet, deposit_with_payload, builtRequest, bindM, emitStep, liftRes, liftPlain, okOr, unwrapOption, pureM, failM, eprintLn, printLn, initState]
              | ok u5 =>
                cases hic : env.isConnected with
                | false => simp_all [mainRun, get_wallet, deposit_with_payload, builtRequest, bindM, emitStep, liftRes, liftPlain, okOr, unwrapOption, pureM, failM, eprintLn, printLn, initState]
                | true =>
                  cases hwo : env.walletOpen args.wallet_secret none true false with
                  | error e => simp_all [mainRun, get_wallet, deposit_with_payload, builtRequest, bindM, emitStep, liftRes, liftPlain, okOr, unwrapOption, pureM, failM, eprintLn, printLn, initState]
                  | ok u6 =>
                    cases he : env.accountsEnumerate with
                    | error e => simp_all [mainRun, get_wallet, deposit_with_payload, builtRequest, bindM, emitStep, liftRes, liftPlain, okOr, unwrapOption, pureM, failM, eprintLn, printLn, initState]
                    | ok accounts =>
                      cases accounts with
                      | nil => simp_all [mainRun, get_wallet, deposit_with_payload, builtRequest, bindM, emitStep, liftRes, liftPlain, okOr, unwrapOption, pureM, failM, eprintLn, printLn, initState]
                      | cons d accs =>
                        cases hra : d.receive_address with
                        | none =>
                          cases hsel : env.accountsSelect (some d.account_id) with
                          | error e => simp_all [mainRun, get_wallet, deposit_with_payload, builtRequest, bindM, emitStep, liftRes, liftPlain, okOr, unwrapOption, pureM, failM, eprintLn, printLn, initState]
                          | ok u7 =>
                            cases hact : env.accountsActivate (some [d.account_id]) with
                            | error e => simp_all [mainRun, get_wallet, deposit_with_payload, builtRequest, bindM, emitStep, liftRes, liftPlain, okOr, unwrapOption, pureM, failM, eprintLn, printLn, initState]
                            | ok u8 => simp_all [mainRun, get_wallet, deposit_with_payload, builtRequest, bindM, emitStep, liftRes, liftPlain, okOr, unwrapOption, pureM, failM, eprintLn, printLn, initState]
                        | some ra =>
                          cases hsel : env.accountsSelect (some d.account_id) with
                          | error e => simp_all [mainRun, get_wallet, deposit_with_payload, builtRequest, bindM, emitStep, liftRes, liftPlain, okOr, unwrapOption, pureM, failM, eprintLn, printLn, initState]
                          | ok u7 =>
                            cases hact : env.accountsActivate (some [d.account_id]) with
                            | error e => simp_all [mainRun, get_wallet, deposit_with_payload, builtRequest, bindM, emitStep, liftRes, liftPlain, okOr, unwrapOption, pureM, failM, eprintLn, printLn, initState]
                            | ok u8 =>
                              cases hpa : env.parseAddress args.escrow with
                              | error e => simp_all [mainRun, get_wallet, deposit_with_payload, builtRequest, bindM, emitStep, liftRes, liftPlain, okOr, unwrapOption, pureM, failM, eprintLn, printLn, initState]
                              | ok addr =>
                                cases hhx : hexDecode args.payload with
                                | error e => simp_all [mainRun, get_wallet, deposit_with_payload, builtRequest, bindM, emitStep, liftRes, liftPlain, okOr, unwrapOption, pureM, failM, eprintLn, printLn, initState]
                                | ok pl =>
                                  cases hacct : env.account with
                                  | error e => simp_all [mainRun, get_wallet, deposit_with_payload, builtRequest, bindM, emitStep, liftRes, liftPlain, okOr, unwrapOption, pureM, failM, eprintLn, printLn, initState]
                                  | ok u9 =>
                                    cases hsend : env.send (builtRequest args.wallet_secret addr args.amount pl) with
                                    | error e => simp_all [mainRun, get_wallet, deposit_with_payload, builtRequest, bindM, emitStep, liftRes, liftPlain, okOr, unwrapOption, pureM, failM, eprintLn, printLn, initState]
                                    | ok summ =>
                                      cases hfin : summ.final_transaction_id with
                                      | none => simp_all [mainRun, get_wallet, deposit_with_payload, builtRequest, bindM, emitStep, liftRes, liftPlain, okOr, unwrapOption, pureM, failM, eprintLn, printLn, initState]
                                      | some tx =>
                                        exact ⟨builtRequest args.wallet_secret addr args.amount pl, summ, tx,
              by simp_all [mainRun, get_wallet, deposit_with_payload, builtRequest, bindM, emitStep, liftRes, liftPlain, okOr, unwrapOption, pureM, failM, eprintLn, printLn, initState], hsend, hfin, by simp_all [mainRun, get_wallet, deposit_with_payload, builtRequest, bindM, emitStep, liftRes, liftPlain, okOr, unwrapOption, pureM, failM, eprintLn, printLn, initState]⟩

      | some f =>
        cases hsfr : env.setStorageFolder f with
        | error e => simp_all [mainRun, get_wallet, deposit_with_payload, builtRequest, bindM, emitStep, liftRes, liftPlain, okOr, unwrapOption, pureM, failM, eprintLn, printLn, initState]
        | ok u =>
          cases hls : env.localStore with
          | error e => simp_all [mainRun, get_wallet, deposit_with_payload, builtRequest, bindM, emitStep, liftRes, liftPlain, okOr, unwrapOption, pureM, failM, eprintLn, printLn, initState]
          | ok u2 =>
            cases htn : env.tryNew (NetworkId.testnet 10) with
            | error e => simp_all [mainRun, get_wallet, deposit_with_payload, builtRequest, bindM, emitStep, liftRes, liftPlain, okOr, unwrapOption, pureM, failM, eprintLn, printLn, initState]
            | ok u3 =>
              cases hst : env.start with
              | error e => simp_all [mainRun, get_wallet, deposit_with_payload, builtRequest, bindM, emitStep, liftRes, liftPlain, okOr, unwrapOption, pureM, failM, eprintLn, printLn, initState]
              | ok u4 =>
                cases hc : env.connect (some args.rpc) (NetworkId.testnet 10) with
                | error e => simp_all [mainRun, get_wallet, deposit_with_payload, builtRequest, bindM, emitStep, liftRes, liftPlain, okOr, unwrapOption, pureM, failM, eprintLn, printLn, initState]
                | ok u5 =>
                  cases hic : env.isConnected with
                  | false => simp_all [mainRun, get_wallet, deposit_with_payload, builtRequest, bindM, emitStep, liftRes, liftPlain, okOr, unwrapOption, pureM, failM, eprintLn, printLn, initState]
                  | true =>
                    cases hwo : env.walletOpen args.wallet_secret none true false with
                    | error e => simp_all [mainRun, get_wallet, deposit_with_payload, builtRequest, bindM, emitStep, liftRes, liftPlain, okOr, unwrapOption, pureM, failM, eprintLn, printLn, initState]
                    | ok u6 =>
                      cases he : env.accountsEnumerate with
                      | error e => simp_all [mainRun, get_wallet, deposit_with_payload, builtRequest, bindM, emitStep, liftRes, liftPlain, okOr, unwrapOption, pureM, failM, eprintLn, printLn, initState]
                      | ok accounts =>
                        cases accounts with
                        | nil => simp_all [mainRun, get_wallet, deposit_with_payload, builtRequest, bindM, emitStep, liftRes, liftPlain, okOr, unwrapOption, pureM, failM, eprintLn, printLn, initState]
                        | cons d accs =>
                          cases hra : d.receive_address with
                          | none =>
                            cases hsel : env.accountsSelect (some d.account_id) with
                            | error e => simp_all [mainRun, get_wallet, deposit_with_payload, builtRequest, bindM, emitStep, liftRes, liftPlain, okOr, unwrapOption, pureM, failM, eprintLn, printLn, initState]
                            | ok u7 =>
                              cases hact : env.accountsActivate (some [d.account_id]) with
                              | error e => simp_all [mainRun, get_wallet, deposit_with_payload, builtRequest, bindM, emitStep, liftRes, liftPlain, okOr, unwrapOption, pureM, failM, eprintLn, printLn, initState]
                              | ok u8 => simp_all [mainRun, get_wallet, deposit_with_payload, builtRequest, bindM, emitStep, liftRes, liftPlain, okOr, unwrapOption, pureM, failM, eprintLn, printLn, initState]
                          | some ra =>
                            cases hsel : env.accountsSelect (some d.account_id) with
                            | error e => simp_all [mainRun, get_wallet, deposit_with_payload, builtRequest, bindM, emitStep, liftRes, liftPlain, okOr, unwrapOption, pureM, failM, eprintLn, printLn, initState]
                            | ok u7 =>
                              cases hact : env.accountsActivate (some [d.account_id]) with
                              | error e => simp_all [mainRun, get_wallet, deposit_with_payload, builtRequest, bindM, emitStep, liftRes, liftPlain, okOr, unwrapOption, pureM, failM, eprintLn, printLn, initState]
                              | ok u8 =>
                                cases hpa : env.parseAddress args.escrow with
                                | error e => simp_all [mainRun, get_wallet, deposit_with_payload, builtRequest, bindM, emitStep, liftRes, liftPlain, okOr, unwrapOption, pureM, failM, eprintLn, printLn, initState]
                                | ok addr =>
                                  cases hhx : hexDecode args.payload with
                                  | error e => simp_all [mainRun, get_wallet, deposit_with_payload, builtRequest, bindM, emitStep, liftRes, liftPlain, okOr, unwrapOption, pureM, failM, eprintLn, printLn, initState]
                                  | ok pl =>
                                    cases hacct : env.account with
                                    | error e => simp_all [mainRun, get_wallet, deposit_with_payload, builtRequest, bindM, emitStep, liftRes, liftPlain, okOr, unwrapOption, pureM, failM, eprintLn, printLn, initState]
                                    | ok u9 =>
                                      cases hsend : env.send (builtRequest args.wallet_secret addr args.amount pl) with
                                      | error e => simp_all [mainRun, get_wallet, deposit_with_payload, builtRequest, bindM, emitStep, liftRes, liftPlain, okOr, unwrapOption, pureM, failM, eprintLn, printLn, initState]
                                      | ok summ =>
                                        cases hfin : summ.final_transaction_id with
                                        | none => simp_all [mainRun, get_wallet, deposit_with_payload, builtRequest, bindM, emitStep, liftRes, liftPlain, okOr, unwrapOption, pureM, failM, eprintLn, printLn, initState]
                                        | some tx =>
                                          exact ⟨builtRequest args.wallet_secret addr args.amount pl, summ, tx,
                by simp_all [mainRun, get_wallet, deposit_with_payload, builtRequest, bindM, emitStep, liftRes, liftPlain, okOr, unwrapOption, pureM, failM, eprintLn, printLn, initState], hsend, hfin, by simp_all [mainRun, get_wallet, deposit_with_payload, builtRequest, bindM, emitStep, liftRes, liftPlain, okOr, unwrapOption, pureM, failM, eprintLn, printLn, initState]⟩

    · simp [mainRun, bindM, pureM, failM, eprintLn, initState, hn1, hn2] at hok

/-- Witness for C9 at the fully successful concrete provider. -/
theorem stdout_exactly_txid_on_success_witness :
    ∃ req summ tx,
      Step.sendStep req ∈
        (mainRun envOk ⟨"pw", none, 5, "0300", "kaspa:qqescrow", "mainnet",
            "wss://node"⟩ initState).1.trace ∧
      envOk.send req = Except.ok summ ∧
      summ.final_transaction_id = some tx ∧
      (mainRun envOk ⟨"pw", none, 5, "0300", "kaspa:qqescrow", "mainnet",
          "wss://node"⟩ initState).1.stdoutLines = [tx] :=
  stdout_exactly_txid_on_success envOk
    ⟨"pw", none, 5, "0300", "kaspa:qqescrow", "mainnet", "wss://node"⟩
    (by decide)

end KaspaSender

namespace KaspaSender

set_option maxHeartbeats 2000000 in
/-- C10: the program's outcome (including every error message), its
standard output and its diagnostic output are unchanged when only the
wallet secret differs, provided the external provider's unlock and send
calls return the same results for both secrets (same underlying step
failures) — so no error message of the core's own mapping can depend on,
or leak, the secret value. -/
theorem error_messages_secret_independent (env : Env) (args : Args) (s2 : String)
    (hwo : env.walletOpen args.wallet_secret none true false =
           env.walletOpen s2 none true false)
    (hsend : ∀ addr amt pl,
        env.send (builtRequest args.wallet_secret addr amt pl) =
        env.send (builtRequest s2 addr amt pl)) :
    (mainRun env { args with wallet_secret := s2 } initState).2 =
      (mainRun env args initState).2 ∧
    (mainRun env { args with wallet_secret := s2 } initState).1.stdoutLines =
      (mainRun env args initState).1.stdoutLines ∧
    (mainRun env { args with wallet_secret := s2 } initState).1.stderrLines =
      (mainRun env args initState).1.stderrLines := by
  by_cases hn1 : args.network = "mainnet"
  · cases hsfo : args.wallet_dir with
    | none =>
      cases hls : env.localStore with
      | error e => simp_all [mainRun, get_wallet, deposit_with_payload, builtRequest, bindM, emitStep, liftRes, liftPlain, okOr, unwrapOption, pureM, failM, eprintLn, printLn, initState]
      | ok u2 =>
        cases htn : env.tryNew NetworkId.mainnet with
        | error e => simp_all [mainRun, get_wallet, deposit_with_payload, builtRequest, bindM, emitStep, liftRes, liftPlain, okOr, unwrapOption, pureM, failM, eprintLn, printLn, initState]
        | ok u3 =>
          cases hst : env.start with
          | error e => simp_all [mainRun, get_wallet, deposit_with_payload, builtRequest, bindM, emitStep, liftRes, liftPlain, okOr, unwrapOption, pureM, failM, eprintLn, printLn, initState]
          | ok u4 =>
            cases hc : env.connect (some args.rpc) NetworkId.mainnet with
            | error e => simp_all [mainRun, get_wallet, deposit_with_payload, builtRequest, bindM, emitStep, liftRes, liftPlain, okOr, unwrapOption, pureM, failM, eprintLn, printLn, initState]
            | ok u5 =>
              cases hic : env.isConnected with
              | false => simp_all [mainRun, get_wallet, deposit_with_payload, builtRequest, bindM, emitStep, liftRes, liftPlain, okOr, unwrapOption, pureM, failM, eprintLn, printLn, initState]
              | true =>
                cases hw1 : env.walletOpen s2 none true false with
                | error e => simp_all [mainRun, get_wallet, deposit_with_payload, builtRequest, bindM, emitStep, liftRes, liftPlain, okOr, unwrapOption, pureM, failM, eprintLn, printLn, initState]
                | ok u6 =>
                  cases he : env.accountsEnumerate with
                  | error e => simp_all [mainRun, get_wallet, deposit_with_payload, builtRequest, bindM, emitStep, liftRes, liftPlain, okOr, unwrapOption, pureM, failM, eprintLn, printLn, initState]
                  | ok accounts =>
                    cases accounts with
                    | nil => simp_all [mainRun, get_wallet, deposit_with_payload, builtRequest, bindM, emitStep, liftRes, liftPlain, okOr, unwrapOption, pureM, failM, eprintLn, printLn, initState]
                    | cons d accs =>
                      cases hsel : env.accountsSelect (some d.account_id) with
                      | error e => simp_all [mainRun, get_wallet, deposit_with_payload, builtRequest, bindM, emitStep, liftRes, liftPlain, okOr, unwrapOption, pureM, failM, eprintLn, printLn, initState]
                      | ok u7 =>
                        cases hact : env.accountsActivate (some [d.account_id]) with
                        | error e => simp_all [mainRun, get_wallet, deposit_with_payload, builtRequest, bindM, emitStep, liftRes, liftPlain, okOr, unwrapOption, pureM, failM, eprintLn, printLn, initState]
                        | ok u8 =>
                          cases hra : d.receive_address with
                          | none => simp_all [mainRun, get_wallet, deposit_with_payload, builtRequest, bindM, emitStep, liftRes, liftPlain, okOr, unwrapOption, pureM, failM, eprintLn, printLn, initState]
                          | some ra =>
                            cases hpa : env.parseAddress args.escrow with
                            | error e => simp_all [mainRun, get_wallet, deposit_with_payload, builtRequest, bindM, emitStep, liftRes, liftPlain, okOr, unwrapOption, pureM, failM, eprintLn, printLn, initState]
                            | ok addr =>
                              cases hhx : hexDecode args.payload with
                              | error e => simp_all [mainRun, get_wallet, deposit_with_payload, builtRequest, bindM, emitStep, liftRes, liftPlain, okOr, unwrapOption, pureM, failM, eprintLn, printLn, initState]
                              | ok pl =>
                                cases hacct : env.account with
                                | error e => simp_all [mainRun, get_wallet, deposit_with_payload, builtRequest, bindM, emitStep, liftRes, liftPlain, okOr, unwrapOption, pureM, failM, eprintLn, printLn, initState]
                                | ok u9 =>
                                  cases hs1 : env.send (builtRequest s2 addr args.amount pl) with
                                  | error e => simp_all [mainRun, get_wallet, deposit_with_payload, builtRequest, bindM, emitStep, liftRes, liftPlain, okOr, unwrapOption, pureM, failM, eprintLn, printLn, initState]
                                  | ok summ =>
                                    cases hfin : summ.final_transaction_id with
                                    | none => simp_all [mainRun, get_wallet, deposit_with_payload, builtRequest, bindM, emitStep, liftRes, liftPlain, okOr, unwrapOption, pureM, failM, eprintLn, printLn, initState]
                                    | some tx => simp_all [mainRun, get_wallet, deposit_with_payload, builtRequest, bindM, emitStep, liftRes, liftPlain, okOr, unwrapOption, pureM, failM, eprintLn, printLn, initState]

    | some f =>
      cases hsfr : env.setStorageFolder f with
      | error e => simp_all [mainRun, get_wallet, deposit_with_payload, builtRequest, bindM, emitStep, liftRes, liftPlain, okOr, unwrapOption, pureM, failM, eprintLn, printLn, initState]
      | ok u =>
        cases hls : env.localStore with
        | error e => simp_all [mainRun, get_wallet, deposit_with_payload, builtRequest, bindM, emitStep, liftRes, liftPlain, okOr, unwrapOption, pureM, failM, eprintLn, printLn, initState]
        | ok u2 =>
          cases htn : env.tryNew NetworkId.mainnet with
          | error e => simp_all [mainRun, get_wallet, deposit_with_payload, builtRequest, bindM, emitStep, liftRes, liftPlain, okOr, unwrapOption, pureM, failM, eprintLn, printLn, initState]
          | ok u3 =>
            cases hst : env.start with
            | error e => simp_all [mainRun, get_wallet, deposit_with_payload, builtRequest, bindM, emitStep, liftRes, liftPlain, okOr, unwrapOption, pureM, failM, eprintLn, printLn, initState]
            | ok u4 =>
              cases hc : env.connect (some args.rpc) NetworkId.mainnet with
              | error e => simp_all [mainRun, get_wallet, deposit_with_payload, builtRequest, bindM, emitStep, liftRes, liftPlain, okOr, unwrapOption, pureM, failM, eprintLn, printLn, initState]
              | ok u5 =>
                cases hic : env.isConnected with
                | false => simp_all [mainRun, get_wallet, deposit_with_payload, builtRequest, bindM, emitStep, liftRes, liftPlain, okOr, unwrapOption, pureM, failM, eprintLn, printLn, initState]
                | true =>
                  cases hw1 : env.walletOpen s2 none true false with
                  | error e => simp_all [mainRun, get_wallet, deposit_with_payload, builtRequest, bindM, emitStep, liftRes, liftPlain, okOr, unwrapOption, pureM, failM, eprintLn, printLn, initState]
                  | ok u6 =>
                    cases he : env.accountsEnumerate with
                    | error e => simp_all [mainRun, get_wallet, deposit_with_payload, builtRequest, bindM, emitStep, liftRes, liftPlain, okOr, unwrapOption, pureM, failM, eprintLn, printLn, initState]
                    | ok accounts =>
                      cases accounts with
                      | nil => simp_all [mainRun, get_wallet, deposit_with_payload, builtRequest, bindM, emitStep, liftRes, liftPlain, okOr, unwrapOption, pureM, failM, eprintLn, printLn, initState]
                      | cons d accs =>
                        cases hsel : env.accountsSelect (some d.account_id) with
                        | error e => simp_all [mainRun, get_wallet, deposit_with_payload, builtRequest, bindM, emitStep, liftRes, liftPlain, okOr, unwrapOption, pureM, failM, eprintLn, printLn, initState]
                        | ok u7 =>
                          cases hact : env.accountsActivate (some [d.account_id]) with
                          | error e => simp_all [mainRun, get_wallet, deposit_with_payload, builtRequest, bindM, emitStep, liftRes, liftPlain, okOr, unwrapOption, pureM, failM, eprintLn, printLn, initState]
                          | ok u8 =>
                            cases hra : d.receive_address with
                            | none => simp_all [mainRun, get_wallet, deposit_with_payload, builtRequest, bindM, emitStep, liftRes, liftPlain, okOr, unwrapOption, pureM, failM, eprintLn, printLn, initState]
                            | some ra =>
                              cases hpa : env.parseAddress args.escrow with
                              | error e => simp_all [mainRun, get_wallet, deposit_with_payload, builtRequest, bindM, emitStep, liftRes, liftPlain, okOr, unwrapOption, pureM, failM, eprintLn, printLn, initState]
                              | ok addr =>
                                cases hhx : hexDecode args.payload with
                                | error e => simp_all [mainRun, get_wallet, deposit_with_payload, builtRequest, bindM, emitStep, liftRes, liftPlain, okOr, unwrapOption, pureM, failM, eprintLn, printLn, initState]
                                | ok pl =>
                                  cases hacct : env.account with
                                  | error e => simp_all [mainRun, get_wallet, deposit_with_payload, builtRequest, bindM, emitStep, liftRes, liftPlain, okOr, unwrapOption, pureM, failM, eprintLn, printLn, initState]
                                  | ok u9 =>
                                    cases hs1 : env.send (builtRequest s2 addr args.amount pl) with
                                    | error e => simp_all [mainRun, get_wallet, deposit_with_payload, builtRequest, bindM, emitStep, liftRes, liftPlain, okOr, unwrapOption, pureM, failM, eprintLn, printLn, initState]
                                    | ok summ =>
                                      cases hfin : summ.final_transaction_id with
                                      | none => simp_all [mainRun, get_wallet, deposit_with_payload, builtRequest, bindM, emitStep, liftRes, liftPlain, okOr, unwrapOption, pureM, failM, eprintLn, printLn, initState]
                                      | some tx => simp_all [mainRun, get_wallet, deposit_with_payload, builtRequest, bindM, emitStep, liftRes, liftPlain, okOr, unwrapOption, pureM, failM, eprintLn, printLn, initState]

  · by_cases hn2 : args.network = "testnet"
    · cases hsfo : args.wallet_dir with
      | none =>
        cases hls : env.localStore with
        | error e => simp_all [mainRun, get_wallet, deposit_with_payload, builtRequest, bindM, emitStep, liftRes, liftPlain, okOr, unwrapOption, pureM, failM, eprintLn, printLn, initState]
        | ok u2 =>
          cases htn : env.tryNew (NetworkId.testnet 10) with
          | error e => simp_all [mainRun, get_wallet, deposit_with_payload, builtRequest, bindM, emitStep, liftRes, liftPlain, okOr, unwrapOption, pureM, failM, eprintLn, printLn, initState]
          | ok u3 =>
            cases hst : env.start with
            | error e => simp_all [mainRun, get_wallet, deposit_with_payload, builtRequest, bindM, emitStep, liftRes, liftPlain, okOr, unwrapOption, pureM, failM, eprintLn, printLn, initState]
            | ok u4 =>
              cases hc : env.connect (some args.rpc) (NetworkId.testnet 10) with
              | error e => simp_all [mainRun, get_wallet, deposit_with_payload, builtRequest, bindM, emitStep, liftRes, liftPlain, okOr, unwrapOption, pureM, failM, eprintLn, printLn, initState]
              | ok u5 =>
                cases hic : env.isConnected with
                | false => simp_all [mainRun, get_wallet, deposit_with_payload, builtRequest, bindM, emitStep, liftRes, liftPlain, okOr, unwrapOption, pureM, failM, eprintLn, printLn, initState]
                | true =>
                  cases hw1 : env.walletOpen s2 none true false with
                  | error e => simp_all [mainRun, get_wallet, deposit_with_payload, builtRequest, bindM, emitStep, liftRes, liftPlain, okOr, unwrapOption, pureM, failM, eprintLn, printLn, initState]
                  | ok u6 =>
                    cases he : env.accountsEnumerate with
                    | error e => simp_all [mainRun, get_wallet, deposit_with_payload, builtRequest, bindM, emitStep, liftRes, liftPlain, okOr, unwrapOption, pureM, failM, eprintLn, printLn, initState]
                    | ok accounts =>
                      cases accounts with
                      | nil => simp_all [mainRun, get_wallet, deposit_with_payload, builtRequest, bindM, emitStep, liftRes, liftPlain, okOr, unwrapOption, pureM, failM, eprintLn, printLn, initState]
                      | cons d accs =>
                        cases hsel : env.accountsSelect (some d.account_id) with
                        | error e => simp_all [mainRun, get_wallet, deposit_with_payload, builtRequest, bindM, emitStep, liftRes, liftPlain, okOr, unwrapOption, pureM, failM, eprintLn, printLn, initState]
                        | ok u7 =>
                          cases hact : env.accountsActivate (some [d.account_id]) with
                          | error e => simp_all [mainRun, get_wallet, deposit_with_payload, builtRequest, bindM, emitStep, liftRes, liftPlain, okOr, unwrapOption, pureM, failM, eprintLn, printLn, initState]
                          | ok u8 =>
                            cases hra : d.receive_address with
                            | none => simp_all [mainRun, get_wallet, deposit_with_payload, builtRequest, bindM, emitStep, liftRes, liftPlain, okOr, unwrapOption, pureM, failM, eprintLn, printLn, initState]
                            | some ra =>
                              cases hpa : env.parseAddress args.escrow with
                              | error e => simp_all [mainRun, get_wallet, deposit_with_payload, builtRequest, bindM, emitStep, liftRes, liftPlain, okOr, unwrapOption, pureM, failM, eprintLn, printLn, initState]
                              | ok addr =>
                                cases hhx : hexDecode args.payload with
                                | error e => simp_all [mainRun, get_wallet, deposit_with_payload, builtRequest, bindM, emitStep, liftRes, liftPlain, okOr, unwrapOption, pureM, failM, eprintLn, printLn, initState]
                                | ok pl =>
                                  cases hacct : env.account with
                                  | error e => simp_all [mainRun, get_wallet, deposit_with_payload, builtRequest, bindM, emitStep, liftRes, liftPlain, okOr, unwrapOption, pureM, failM, eprintLn, printLn, initState]
                                  | ok u9 =>
                                    cases hs1 : env.send (builtRequest s2 addr args.amount pl) with
                                    | error e => simp_all [mainRun, get_wallet, deposit_with_payload, builtRequest, bindM, emitStep, liftRes, liftPlain, okOr, unwrapOption, pureM, failM, eprintLn, printLn, initState]
                                    | ok summ =>
                                      cases hfin : summ.final_transaction_id with
                                      | none => simp_all [mainRun, get_wallet, deposit_with_payload, builtRequest, bindM, emitStep, liftRes, liftPlain, okOr, unwrapOption, pureM, failM, eprintLn, printLn, initState]
                                      | some tx => simp_all [mainRun, get_wallet, deposit_with_payload, builtRequest, bindM, emitStep, liftRes, liftPlain, okOr, unwrapOption, pureM, failM, eprintLn, printLn, initState]

      | some f =>
        cases hsfr : env.setStorageFolder f with
        | error e => simp_all [mainRun, get_wallet, deposit_with_payload, builtRequest, bindM, emitStep, liftRes, liftPlain, okOr, unwrapOption, pureM, failM, eprintLn, printLn, initState]
        | ok u =>
          cases hls : env.localStore with
          | error e => simp_all [mainRun, get_wallet, deposit_with_payload, builtRequest, bindM, emitStep, liftRes, liftPlain, okOr, unwrapOption, pureM, failM, eprintLn, printLn, initState]
          | ok u2 =>
            cases htn : env.tryNew (NetworkId.testnet 10) with
            | error e => simp_all [mainRun, get_wallet, deposit_with_payload, builtRequest, bindM, emitStep, liftRes, liftPlain, okOr, unwrapOption, pureM, failM, eprintLn, printLn, initState]
            | ok u3 =>
              cases hst : env.start with
              | error e => simp_all [mainRun, get_wallet, deposit_with_payload, builtRequest, bindM, emitStep, liftRes, liftPlain, okOr, unwrapOption, pureM, failM, eprintLn, printLn, initState]
              | ok u4 =>
                cases hc : env.connect (some args.rpc) (NetworkId.testnet 10) with
                | error e => simp_all [mainRun, get_wallet, deposit_with_payload, builtRequest, bindM, emitStep, liftRes, liftPlain, okOr, unwrapOption, pureM, failM, eprintLn, printLn, initState]
                | ok u5 =>
                  cases hic : env.isConnected with
                  | false => simp_all [mainRun, get_wallet, deposit_with_payload, builtRequest, bindM, emitStep, liftRes, liftPlain, okOr, unwrapOption, pureM, failM, eprintLn, printLn, initState]
                  | true =>
                    cases hw1 : env.walletOpen s2 none true false with
                    | error e => simp_all [mainRun, get_wallet, deposit_with_payload, builtRequest, bindM, emitStep, liftRes, liftPlain, okOr, unwrapOption, pureM, failM, eprintLn, printLn, initState]
                    | ok u6 =>
                      cases he : env.accountsEnumerate with
                      | error e => simp_all [mainRun, get_wallet, deposit_with_payload, builtRequest, bindM, emitStep, liftRes, liftPlain, okOr, unwrapOption, pureM, failM, eprintLn, printLn, initState]
                      | ok accounts =>
                        cases accounts with
                        | nil => simp_all [mainRun, get_wallet, deposit_with_payload, builtRequest, bindM, emitStep, liftRes, liftPlain, okOr, unwrapOption, pureM, failM, eprintLn, printLn, initState]
                        | cons d accs =>
                          cases hsel : env.accountsSelect (some d.account_id) with
                          | error e => simp_all [mainRun, get_wallet, deposit_with_payload, builtRequest, bindM, emitStep, liftRes, liftPlain, okOr, unwrapOption, pureM, failM, eprintLn, printLn, initState]
                          | ok u7 =>
                            cases hact : env.accountsActivate (some [d.account_id]) with
                            | error e => simp_all [mainRun, get_wallet, deposit_with_payload, builtRequest, bindM, emitStep, liftRes, liftPlain, okOr, unwrapOption, pureM, failM, eprintLn, printLn, initState]
                            | ok u8 =>
                              cases hra : d.receive_address with
                              | none => simp_all [mainRun, get_wallet, deposit_with_payload, builtRequest, bindM, emitStep, liftRes, liftPlain, okOr, unwrapOption, pureM, failM, eprintLn, printLn, initState]
                              | some ra =>
                                cases hpa : env.parseAddress args.escrow with
                                | error e => simp_all [mainRun, get_wallet, deposit_with_payload, builtRequest, bindM, emitStep, liftRes, liftPlain, okOr, unwrapOption, pureM, failM, eprintLn, printLn, initState]
                                | ok addr =>
                                  cases hhx : hexDecode args.payload with
                                  | error e => simp_all [mainRun, get_wallet, deposit_with_payload, builtRequest, bindM, emitStep, liftRes, liftPlain, okOr, unwrapOption, pureM, failM, eprintLn, printLn, initState]
                                  | ok pl =>
                                    cases hacct : env.account with
                                    | error e => simp_all [mainRun, get_wallet, deposit_with_payload, builtRequest, bindM, emitStep, liftRes, liftPlain, okOr, unwrapOption, pureM, failM, eprintLn, printLn, initState]
                                    | ok u9 =>
                                      cases hs1 : env.send (builtRequest s2 addr args.amount pl) with
                                      | error e => simp_all [mainRun, get_wallet, deposit_with_payload, builtRequest, bindM, emitStep, liftRes, liftPlain, okOr, unwrapOption, pureM, failM, eprintLn, printLn, initState]
                                      | ok summ =>
                                        cases hfin : summ.final_transaction_id with
                                        | none => simp_all [mainRun, get_wallet, deposit_with_payload, builtRequest, bindM, emitStep, liftRes, liftPlain, okOr, unwrapOption, pureM, failM, eprintLn, printLn, initState]
                                        | some tx => simp_all [mainRun, get_wallet, deposit_with_payload, builtRequest, bindM, emitStep, liftRes, liftPlain, okOr, unwrapOption, pureM, failM, eprintLn, printLn, initState]

    · simp [mainRun, bindM, pureM, failM, eprintLn, initState, hn1, hn2]

/-- Witness for C10: two runs at the concrete provider differing only in
the wallet secret. -/
theorem error_messages_secret_independent_witness :
    (mainRun envOk ⟨"otherpw", none, 5, "0300", "kaspa:qqescrow", "mainnet",
        "wss://node"⟩ initState).2 =
      (mainRun envOk ⟨"pw", none, 5, "0300", "kaspa:qqescrow", "mainnet",
          "wss://node"⟩ initState).2 ∧
    (mainRun envOk ⟨"otherpw", none, 5, "0300", "kaspa:qqescrow", "mainnet",
        "wss://node"⟩ initState).1.stdoutLines =
      (mainRun envOk ⟨"pw", none, 5, "0300", "kaspa:qqescrow", "mainnet",
          "wss://node"⟩ initState).1.stdoutLines ∧
    (mainRun envOk ⟨"otherpw", none, 5, "0300", "kaspa:qqescrow", "mainnet",
        "wss://node"⟩ initState).1.stderrLines =
      (mainRun envOk ⟨"pw", none, 5, "0300", "kaspa:qqescrow", "mainnet",
          "wss://node"⟩ initState).1.stderrLines :=
  error_messages_secret_independent envOk
    ⟨"pw", none, 5, "0300", "kaspa:qqescrow", "mainnet", "wss://node"⟩
    "otherpw" rfl (fun _ _ _ => rfl)

end KaspaSender
